import Mathlib

/-!
Verification of the voice-agent conversational orchestrator
(`src/voice-agent/app`) against its natural-language specification.

The Python modules relevant to the claims are shallowly embedded below:

* `app/conversation/safety.py`        → namespace `SafetyGuardrails`
* `app/conversation/validators.py`    → namespace `EntityValidator`
* `app/conversation/context_tracker.py` → namespace `ContextTracker`
* `app/security/__init__.py`          → namespace `RBACEnforcer`
* `app/integration/his_client.py`     → namespace `HISClient`
* `app/conversation/intent_classifier.py` → namespace `IntentClassifier`
* `app/orchestration/workflows/base.py` and `appointment_booking.py`
                                      → namespace `AppointmentBooking`
* `app/main.py` (`process_conversation`) → namespace `MainApp`

Machine-level conventions: Python strings are Lean `String`/`List Char`
(ASCII behaviour of `str.lower`, `\w`, `\d`, `\s` is modelled on the
character sets the code actually handles); Python floats holding the
configuration literals 0.40/0.50/0.65/0.75/0.80/0.85 are modelled as `ℚ`
(written `mkRat n 100`; all comparisons the code performs on these
literals coincide with the float comparisons);
Python dicts are association lists updated in place.
-/

namespace PyStr

/-- Python `str.lower()` (ASCII range, which covers every string the
safety/validator code compares). -/
def pyLower (s : String) : String :=
  ⟨s.data.map Char.toLower⟩

/-- Python `\s` white-space class (ASCII): space, tab, newline, carriage
return, vertical tab, form feed. -/
def pyIsSpace (c : Char) : Bool :=
  c = ' ' || c = '\t' || c = '\n' || c = '\r' || c = '\x0b' || c = '\x0c'

/-- Python `\w` word-character class (ASCII): letters, digits, underscore. -/
def isWordChar (c : Char) : Bool :=
  c.isAlphanum || c = '_'

/-- `subAt needle hay`: does `needle` occur as a contiguous sublist of
`hay`?  Models Python `needle in hay` on strings. -/
def subAt (needle : List Char) : List Char → Bool
  | [] => needle.isEmpty
  | c :: rest => needle.isPrefixOf (c :: rest) || subAt needle rest

/-- Python `needle in hay` for strings. -/
def strContains (hay needle : String) : Bool :=
  subAt needle.data hay.data

/-- Python `str.strip()` (removes leading and trailing white space). -/
def pyStrip (s : String) : String :=
  ⟨((s.data.dropWhile pyIsSpace).reverse.dropWhile pyIsSpace).reverse⟩

/-- Python `str.split()` with no argument: split on runs of white space,
discarding empty pieces. -/
def pySplitAux : List Char → List Char → List (List Char)
  | [], acc => if acc.isEmpty then [] else [acc.reverse]
  | c :: rest, acc =>
    if pyIsSpace c then
      if acc.isEmpty then pySplitAux rest [] else acc.reverse :: pySplitAux rest []
    else
      pySplitAux rest (c :: acc)

def pySplit (s : String) : List String :=
  (pySplitAux s.data []).map fun l => ⟨l⟩

end PyStr

/-! ### Python values

Entity bags, session context bags and workflow state bags in the Python
code are `Dict[str, Any]`.  The values the embedded code paths actually
store and test are strings, booleans, integers, lists of doctor records,
lists of department records and nested dicts; `PyVal` covers exactly
those, together with Python truthiness. -/

/-- A doctor record as consumed by the appointment workflow:
`doc.get("_id")` and `doc.get("profile", {}).get("firstName" / "lastName", "")`. -/
structure DoctorR where
  id : Option String
  firstName : String
  lastName : String
  deriving Repr, DecidableEq

/-- A department record as consumed by the appointment workflow:
`dept.get("_id")` and `dept.get("name", "")`. -/
structure DeptR where
  id : Option String
  name : String
  deriving Repr, DecidableEq

inductive PyVal where
  | none
  | str (s : String)
  | bool (b : Bool)
  | int (n : Int)
  | doctorList (ds : List DoctorR)
  | deptList (ds : List DeptR)
  | dict (kvs : List (String × PyVal))
  deriving Repr

namespace PyVal

/-- Python truthiness of the values in scope. -/
def truthy : PyVal → Bool
  | .none => false
  | .str s => !s.isEmpty
  | .bool b => b
  | .int n => n != 0
  | .doctorList ds => !ds.isEmpty
  | .deptList ds => !ds.isEmpty
  | .dict kvs => !kvs.isEmpty

/-- Python `a or b` on values. -/
def pyOr (a b : PyVal) : PyVal := if a.truthy then a else b

/-- The string content of a value (the embedded code paths only apply
string operations to values that are strings; other values render as ""). -/
def asStr : PyVal → String
  | .str s => s
  | _ => ""

/-- The integer content of a value, default `d` (models
`context.get(k, 0)` followed by integer comparison). -/
def asIntD (d : Int) : PyVal → Int
  | .int n => n
  | _ => d

def ofOptStr : Option String → PyVal
  | some s => .str s
  | Option.none => .none

end PyVal

/-- A Python `Dict[str, Any]`: association list, first binding wins on
lookup, update overwrites in place (insertion order preserved). -/
abbrev Bag := List (String × PyVal)

namespace Bag

/-- `d.get(k)` (returns `None` when missing). -/
def get (d : Bag) (k : String) : PyVal :=
  match List.lookup k (d : List (String × PyVal)) with
  | some v => v
  | none => PyVal.none

/-- `d[k] = v`. -/
def set (d : Bag) (k : String) (v : PyVal) : Bag :=
  match (d : List (String × PyVal)) with
  | [] => ([(k, v)] : List (String × PyVal))
  | (k', v') :: rest =>
    if k' = k then ((k, v) :: rest : List (String × PyVal))
    else ((k', v') :: set rest k v : List (String × PyVal))

/-- A nested bag-valued entry, default `{}` (models
`context.get(k, {})`). -/
def getBag (d : Bag) (k : String) : Bag :=
  match d.get k with
  | .dict kvs => (kvs : List (String × PyVal))
  | _ => ([] : List (String × PyVal))

end Bag

/-! ## Safety guardrails (`app/conversation/safety.py`) -/

namespace SafetyGuardrails

inductive ConfidenceLevel where
  | high | medium | low | veryLow
  deriving Repr, DecidableEq

inductive SafetyAction where
  | allow | confirm | clarify | escalate | block
  deriving Repr, DecidableEq

/-- `CONFIDENCE_THRESHOLDS` (safety.py lines 32–36). -/
def CONFIDENCE_THRESHOLDS : ConfidenceLevel → ℚ
  | .high => mkRat 85 100
  | .medium => mkRat 65 100
  | .low => mkRat 40 100
  | .veryLow => 0

/-- `INTENT_CONFIDENCE_OVERRIDES` (safety.py lines 39–45). -/
def INTENT_CONFIDENCE_OVERRIDES : List (String × ℚ) :=
  [("REGISTER_PATIENT", mkRat 80 100),
   ("BOOK_APPOINTMENT", mkRat 75 100),
   ("REPORT_EMERGENCY", mkRat 50 100),
   ("REQUEST_BED_ALLOCATION", mkRat 80 100),
   ("CANCEL_APPOINTMENT", mkRat 85 100)]

/-- `EMERGENCY_KEYWORDS` (safety.py lines 54–58). -/
def EMERGENCY_KEYWORDS : List String :=
  ["emergency", "urgent", "accident", "heart attack", "stroke",
   "bleeding", "unconscious", "chest pain", "breathing problem",
   "seizure", "collapse", "dying", "critical", "ambulance"]

/-- `HUMAN_ESCALATION_KEYWORDS` (safety.py lines 61–65). -/
def HUMAN_ESCALATION_KEYWORDS : List String :=
  ["human", "person", "real person", "speak to someone",
   "transfer", "operator", "receptionist", "manager",
   "not working", "useless", "stupid bot", "talk to human"]

def MAX_TURNS_BEFORE_ESCALATION : Int := 15
def MAX_INTENT_FAILURES : Int := 3

/-- `get_confidence_level` (safety.py lines 81–91). -/
def get_confidence_level (confidence : ℚ) : ConfidenceLevel :=
  if confidence ≥ CONFIDENCE_THRESHOLDS .high then .high
  else if confidence ≥ CONFIDENCE_THRESHOLDS .medium then .medium
  else if confidence ≥ CONFIDENCE_THRESHOLDS .low then .low
  else .veryLow

/-- `_intent_to_action` (safety.py lines 129–145). -/
def intent_to_action (intent : String) : String :=
  match List.lookup intent
    [("REGISTER_PATIENT", "register as a new patient"),
     ("FIND_PATIENT", "look up your patient record"),
     ("BOOK_APPOINTMENT", "book an appointment"),
     ("RESCHEDULE_APPOINTMENT", "reschedule your appointment"),
     ("CANCEL_APPOINTMENT", "cancel your appointment"),
     ("OPD_CHECKIN", "check in for your appointment"),
     ("CHECK_BED_AVAILABILITY", "check bed availability"),
     ("REQUEST_BED_ALLOCATION", "request a bed"),
     ("BOOK_LAB_TEST", "book a lab test"),
     ("CHECK_LAB_STATUS", "check your lab results"),
     ("CHECK_BILL_STATUS", "check your bill status")] with
  | some a => a
  | none => "proceed with that"

/-- The intent-specific threshold
(`INTENT_CONFIDENCE_OVERRIDES.get(intent, CONFIDENCE_THRESHOLDS[MEDIUM])`,
safety.py lines 107–110). -/
def intent_threshold (intent : String) : ℚ :=
  match List.lookup intent INTENT_CONFIDENCE_OVERRIDES with
  | some t => t
  | none => CONFIDENCE_THRESHOLDS .medium

/-- `check_intent_confidence` (safety.py lines 93–127).  The `context`
argument of the Python method is unused by its body. -/
def check_intent_confidence (intent : String) (confidence : ℚ) :
    SafetyAction × String :=
  let threshold : ℚ := intent_threshold intent
  match get_confidence_level confidence with
  | .high => (.allow, "")
  | .medium =>
    if confidence ≥ threshold then (.allow, "")
    else (.confirm, "Just to confirm, did you want to " ++ intent_to_action intent ++ "?")
  | .low =>
    (.clarify, "I\x27m not quite sure I understood. Could you please tell me again what you\x27d like to do?")
  | .veryLow =>
    (.clarify, "I\x27m sorry, I didn\x27t catch that. Could you please repeat?")

/-- `check_for_emergency` (safety.py lines 147–162). -/
def check_for_emergency (text : String) : Bool × Option String :=
  let textLower := PyStr.pyLower text
  match EMERGENCY_KEYWORDS.find? (fun kw => PyStr.strContains textLower kw) with
  | some kw => (true, some kw)
  | none => (false, none)

/-- `check_for_human_escalation` (safety.py lines 164–174). -/
def check_for_human_escalation (text : String) : Bool :=
  let textLower := PyStr.pyLower text
  HUMAN_ESCALATION_KEYWORDS.any (fun kw => PyStr.strContains textLower kw)

/-- `should_escalate` (safety.py lines 209–228). -/
def should_escalate (context : Bag) : Bool × String :=
  let turnCount := (context.get "turn_count").asIntD 0
  let failedIntents := (context.get "failed_intents").asIntD 0
  if turnCount ≥ MAX_TURNS_BEFORE_ESCALATION then (true, "long_conversation")
  else if failedIntents ≥ MAX_INTENT_FAILURES then (true, "repeated_failures")
  else (false, "")

/-! #### `mask_sensitive_data` (safety.py lines 193–207)

Three `re.sub` passes over the text, in order:

1. Aadhaar  `\b(\d{4})[\s-]?(\d{4})[\s-]?(\d{4})\b`            → `XXXX-XXXX-\3`
2. phone    `\b(\d{6})(\d{4})\b`                               → `XXXXXX\2`
3. card     `\b(\d{4})[\s-]?(\d{4})[\s-]?(\d{4})[\s-]?(\d{4})\b` → `XXXX-XXXX-XXXX-\4`

Since every group is a fixed-length digit run and every separator is a
single optional `[\s-]` character followed by a mandatory digit, the
regex backtracking is deterministic: an optional separator is consumed
exactly when the next character is a separator character.  `\b` before
the first digit holds iff the previous character is absent or a
non-word character; `\b` after the last digit holds iff the next
character is absent or a non-word character. -/

/-- `[\s-]` separator class. -/
def isSepChar (c : Char) : Bool := PyStr.pyIsSpace c || c = '-'

/-- Consume exactly `n` digits, returning them and the rest. -/
def takeDigits : Nat → List Char → Option (List Char × List Char)
  | 0, l => some ([], l)
  | _ + 1, [] => none
  | n + 1, c :: rest =>
    if c.isDigit then
      match takeDigits n rest with
      | some (g, r) => some (c :: g, r)
      | none => none
    else none

/-- Consume one `[\s-]` character when present (deterministic `[\s-]?`). -/
def skipOptSep : List Char → List Char
  | [] => []
  | c :: rest => if isSepChar c then rest else c :: rest

/-- `\b` before a digit: previous character absent or non-word. -/
def boundaryBefore : Option Char → Bool
  | none => true
  | some c => !PyStr.isWordChar c

/-- `\b` after a digit: next character absent or non-word. -/
def boundaryAfter : List Char → Bool
  | [] => true
  | c :: _ => !PyStr.isWordChar c

/-- Aadhaar pattern match at the head of `l`; returns the third group
and the remainder after the match. -/
def matchAadhaar (prev : Option Char) (l : List Char) : Option (List Char × List Char) :=
  if boundaryBefore prev then
    match takeDigits 4 l with
    | some (_, r1) =>
      match takeDigits 4 (skipOptSep r1) with
      | some (_, r2) =>
        match takeDigits 4 (skipOptSep r2) with
        | some (g3, r3) => if boundaryAfter r3 then some (g3, r3) else none
        | none => none
      | none => none
    | none => none
  else none

/-- Phone pattern match at the head of `l`; returns the second group
and the remainder after the match. -/
def matchPhone (prev : Option Char) (l : List Char) : Option (List Char × List Char) :=
  if boundaryBefore prev then
    match takeDigits 6 l with
    | some (_, r1) =>
      match takeDigits 4 r1 with
      | some (g2, r2) => if boundaryAfter r2 then some (g2, r2) else none
      | none => none
    | none => none
  else none

/-- Card pattern match at the head of `l`; returns the fourth group
and the remainder after the match. -/
def matchCard (prev : Option Char) (l : List Char) : Option (List Char × List Char) :=
  if boundaryBefore prev then
    match takeDigits 4 l with
    | some (_, r1) =>
      match takeDigits 4 (skipOptSep r1) with
      | some (_, r2) =>
        match takeDigits 4 (skipOptSep r2) with
        | some (_, r3) =>
          match takeDigits 4 (skipOptSep r3) with
          | some (g4, r4) => if boundaryAfter r4 then some (g4, r4) else none
          | none => none
        | none => none
      | none => none
    | none => none
  else none

/-- `re.sub` scan: at each position attempt the match; on success emit
the replacement and continue after the match, otherwise copy one
character.  The previous character (for `\b`) is threaded through; the
last character consumed by any of the three patterns is the last digit
of the returned group.  `fuel` starts at the length of the list and is
an upper bound on the number of scan steps. -/
def subScan (m : Option Char → List Char → Option (List Char × List Char))
    (repl : List Char → List Char) :
    Nat → Option Char → List Char → List Char
  | 0, _, l => l
  | _ + 1, _, [] => []
  | fuel + 1, prev, c :: rest =>
    match m prev (c :: rest) with
    | some (g, rest') => repl g ++ subScan m repl fuel (some (g.getLastD c)) rest'
    | none => c :: subScan m repl fuel (some c) rest

def reSubAadhaar (l : List Char) : List Char :=
  subScan matchAadhaar (fun g => "XXXX-XXXX-".data ++ g) l.length none l

def reSubPhone (l : List Char) : List Char :=
  subScan matchPhone (fun g => "XXXXXX".data ++ g) l.length none l

def reSubCard (l : List Char) : List Char :=
  subScan matchCard (fun g => "XXXX-XXXX-XXXX-".data ++ g) l.length none l

/-- `mask_sensitive_data` (safety.py lines 193–207). -/
def mask_sensitive_data (text : String) : String :=
  ⟨reSubCard (reSubPhone (reSubAadhaar text.data))⟩

/-- Result dict of `get_safe_response`. -/
structure SafeResponse where
  action : SafetyAction
  message : Option String
  intent_override : Option String
  log_text : String
  deriving Repr, DecidableEq

/-- `get_safe_response` (safety.py lines 257–303). -/
def get_safe_response (intent : String) (confidence : ℚ) (raw_text : String)
    (context : Bag) : SafeResponse :=
  let base : SafeResponse :=
    { action := .allow, message := none, intent_override := none,
      log_text := mask_sensitive_data raw_text }
  if (check_for_emergency raw_text).1 then
    { base with action := .escalate, intent_override := some "REPORT_EMERGENCY",
                message := none }
  else if check_for_human_escalation raw_text then
    { base with action := .escalate, intent_override := some "ESCALATE_TO_HUMAN" }
  else
    let ca := check_intent_confidence intent confidence
    if ca.1 ≠ .allow then
      { base with action := ca.1, message := some ca.2 }
    else if (should_escalate context).1 then
      { base with action := .escalate,
                  message := some "I\x27ve been trying to help but it seems complex. Let me connect you with a human receptionist who can assist you better." }
    else base

end SafetyGuardrails

/-! ## RBAC enforcement (`app/security/__init__.py`) -/

namespace Glob

/-- `fnmatch.fnmatch` on the patterns used by the RBAC lists, which
contain only literal characters and `*` (matching any sequence of
characters, `/` included).  The whole string must match.  Every
recursive call shrinks `pattern.length + string.length`, so fuel equal
to that sum suffices (structural recursion keeps the function
kernel-reducible). -/
def globMatchF : Nat → List Char → List Char → Bool
  | 0, _, _ => false
  | _ + 1, [], [] => true
  | _ + 1, [], _ :: _ => false
  | f + 1, '*' :: ps, [] => globMatchF f ps []
  | f + 1, '*' :: ps, c :: cs => globMatchF f ps (c :: cs) || globMatchF f ('*' :: ps) cs
  | _ + 1, _ :: _, [] => false
  | f + 1, p :: ps, c :: cs => p == c && globMatchF f ps cs

def globMatch (p s : List Char) : Bool :=
  globMatchF (p.length + s.length + 1) p s

end Glob

namespace RBACEnforcer

/-- `ALLOWED_ENDPOINTS` (security/__init__.py lines 338–359). -/
def ALLOWED_ENDPOINTS : List String :=
  ["POST /auth/login",
   "GET /patients/*",
   "POST /patients",
   "PUT /patients/*",
   "GET /departments",
   "GET /departments/*",
   "POST /opd/appointments",
   "GET /opd/appointments/*",
   "PUT /opd/appointments/*",
   "PUT /opd/appointments/*/checkin",
   "DELETE /opd/appointments/*",
   "GET /opd/queue",
   "GET /beds",
   "GET /beds/availability",
   "POST /beds/allocate",
   "POST /emergency/cases",
   "GET /emergency/cases/*",
   "GET /lab/tests",
   "GET /lab/orders/*",
   "GET /billing/patients/*"]

/-- `DENIED_ENDPOINTS` (security/__init__.py lines 362–369). -/
def DENIED_ENDPOINTS : List String :=
  ["DELETE /patients/*",
   "POST /lab/orders",
   "PUT /lab/orders/*",
   "POST /users",
   "PUT /users/*",
   "DELETE /*"]

/-- `_matches_pattern` (security/__init__.py lines 401–405). -/
def matches_pattern (endpoint pattern : String) : Bool :=
  Glob.globMatch pattern.data endpoint.data

/-- `is_allowed` (security/__init__.py lines 371–399): denies first,
then allows, default deny. -/
def is_allowed (method endpoint : String) : Bool :=
  let full := method ++ " " ++ endpoint
  if DENIED_ENDPOINTS.any (fun d => matches_pattern full d) then false
  else ALLOWED_ENDPOINTS.any (fun a => matches_pattern full a)

end RBACEnforcer

/-! ## HIS backend client (`app/integration/his_client.py`) -/

namespace HISClient

structure HttpCall where
  method : String
  endpoint : String
  deriving Repr, DecidableEq

structure HttpResponse where
  status : Nat
  body : Bag

/-- `HISClient._request` (his_client.py lines 112–163), with the HTTP
transport as an oracle `backend`.  The body of `_request` is: ensure
authentication (`_ensure_authenticated`, which may issue
`POST /auth/login`), then issue the request for `(method, endpoint)`
unconditionally, then translate a status ≥ 400 into `HISAPIError`.
No RBAC or allow-list check appears anywhere on this path —
`RBACEnforcer.is_allowed` has no caller in the repository.  The first
component of the result lists every HTTP request issued. -/
def request (backend : HttpCall → HttpResponse) (authenticated : Bool)
    (method endpoint : String) : List HttpCall × Except (Nat × String) Bag :=
  let authCalls : List HttpCall :=
    if authenticated then [] else [⟨"POST", "/auth/login"⟩]
  let call : HttpCall := ⟨method, endpoint⟩
  let resp := backend call
  (authCalls ++ [call],
   if resp.status ≥ 400 then .error (resp.status, endpoint) else .ok resp.body)

/-- `get_patient_bills` (his_client.py lines 343–346): issues
`GET /billing/patient/{patient_id}` through `_request`. -/
def get_patient_bills (backend : HttpCall → HttpResponse) (authenticated : Bool)
    (patient_id : String) : List HttpCall × Except (Nat × String) Bag :=
  request backend authenticated "GET" ("/billing/patient/" ++ patient_id)

/-- `get_lab_orders` (his_client.py lines 333–337): issues
`GET /lab/orders` through `_request`. -/
def get_lab_orders (backend : HttpCall → HttpResponse) (authenticated : Bool) :
    List HttpCall × Except (Nat × String) Bag :=
  request backend authenticated "GET" "/lab/orders"

/-- A backend oracle that accepts every request. -/
def okBackend : HttpCall → HttpResponse := fun _ => ⟨200, []⟩

end HISClient

namespace PyStr

/-- Python slicing `s[n:]`. -/
def strDrop (s : String) (n : Nat) : String := ⟨s.data.drop n⟩

/-- Python `s.startswith(pre)`. -/
def strStartsWith (s pre : String) : Bool := pre.data.isPrefixOf s.data

end PyStr

/-! ## Entity validators (`app/conversation/validators.py`) -/

namespace EntityValidator

inductive ValidationResult where
  | valid | invalid | needs_confirmation
  deriving Repr, DecidableEq

/-- `re.sub(r'[\s\-\(\)\+]', '', phone)` (validators.py line 98). -/
def stripPhone (phone : String) : String :=
  ⟨phone.data.filter fun c =>
    !(PyStr.pyIsSpace c || c = '-' || c = '(' || c = ')' || c = '+')⟩

/-- `^[6-9]\d{9}$`. -/
def matchesMobilePattern : List Char → Bool
  | c :: rest => ('6' ≤ c && c ≤ '9') && rest.length == 9 && rest.all Char.isDigit
  | [] => false

/-- `^0\d{10}$`. -/
def matchesLeadingZeroPattern : List Char → Bool
  | c :: rest => c == '0' && rest.length == 10 && rest.all Char.isDigit
  | [] => false

/-- `^91\d{10}$`. -/
def matchesCountryCodePattern : List Char → Bool
  | c1 :: c2 :: rest => c1 == '9' && c2 == '1' && rest.length == 10 && rest.all Char.isDigit
  | _ => false

/-- `^\+91\d{10}$`. -/
def matchesPlusCountryPattern : List Char → Bool
  | c0 :: c1 :: c2 :: rest =>
    c0 == '+' && c1 == '9' && c2 == '1' && rest.length == 10 && rest.all Char.isDigit
  | _ => false

/-- `PHONE_PATTERNS` (validators.py lines 28–33), in order. -/
def PHONE_PATTERNS : List (List Char → Bool) :=
  [matchesMobilePattern, matchesLeadingZeroPattern,
   matchesCountryCodePattern, matchesPlusCountryPattern]

/-- The normalization step of the matching-pattern branch
(validators.py lines 103–111); `none` models `continue`. -/
def normalizeCleaned (cleaned : String) : Option String :=
  if cleaned.length == 12 && PyStr.strStartsWith cleaned "91" then
    some (PyStr.strDrop cleaned 2)
  else if cleaned.length == 11 && PyStr.strStartsWith cleaned "0" then
    some (PyStr.strDrop cleaned 1)
  else if cleaned.length == 10 then some cleaned
  else none

/-- The `for pattern in PHONE_PATTERNS` loop (validators.py lines 101–113). -/
def phoneLoop (cleaned : String) : List (List Char → Bool) → Option String
  | [] => none
  | p :: ps =>
    if p cleaned.data then
      match normalizeCleaned cleaned with
      | some n => some n
      | none => phoneLoop cleaned ps
    else phoneLoop cleaned ps

/-- `validate_phone` (validators.py lines 86–115). -/
def validate_phone (phone : String) :
    ValidationResult × Option String × Option String :=
  if phone.isEmpty then
    (.invalid, none, some "Phone number is required")
  else
    match phoneLoop (stripPhone phone) PHONE_PATTERNS with
    | some n => (.valid, some n, none)
    | none => (.invalid, none, some "Please provide a valid 10-digit mobile number")

end EntityValidator

/-! ## Context tracker (`app/conversation/context_tracker.py`) -/

namespace ContextTracker

/-- The tracker's constructor parameters (context_tracker.py line 52). -/
structure Config where
  session_timeout : Nat := 300
  max_turns : Nat := 20

/-- `ConversationTurn` (context_tracker.py lines 15–24).  Timestamps are
abstract naturals. -/
structure ConversationTurn where
  turn_id : Nat
  timestamp : Nat
  user_input : String
  intent : String
  entities : List (String × PyVal)
  response : String

/-- `ConversationSession` (context_tracker.py lines 27–43). -/
structure ConversationSession where
  session_id : String
  caller_id : String
  channel : String
  started_at : Nat
  last_activity : Nat
  turns : List ConversationTurn := []
  context : Bag := []
  current_workflow : Option String := none
  workflow_state : Bag := []
  is_active : Bool := true

/-- `create_session` (context_tracker.py lines 64–97), with the fresh id
and the clock supplied by the caller. -/
def create_session (session_id caller_id channel : String) (now : Nat) :
    ConversationSession :=
  { session_id := session_id, caller_id := caller_id, channel := channel,
    started_at := now, last_activity := now }

/-- `_is_session_expired` (context_tracker.py lines 110–113). -/
def is_session_expired (cfg : Config) (s : ConversationSession) (now : Nat) : Bool :=
  now > s.last_activity + cfg.session_timeout

/-- `_merge_entities` (context_tracker.py lines 173–181): values merge
into the session context only when truthy. -/
def merge_entities (context : Bag) (entities : List (String × PyVal)) : Bag :=
  entities.foldl (fun d kv => if kv.2.truthy then d.set kv.1 kv.2 else d) context

/-- `add_turn` (context_tracker.py lines 115–171) on a stored session:
`get_session` marks an expired session inactive and yields no session
(turn rejected); a session at `max_turns` is marked inactive and the
turn rejected; otherwise the turn is appended, `last_activity` updated
and the entities merged. -/
def add_turn (cfg : Config) (now : Nat) (s : ConversationSession)
    (user_input intent : String) (entities : List (String × PyVal))
    (response : String) : Bool × ConversationSession :=
  if is_session_expired cfg s now then
    (false, { s with is_active := false })
  else if s.turns.length ≥ cfg.max_turns then
    (false, { s with is_active := false })
  else
    let turn : ConversationTurn :=
      ⟨s.turns.length + 1, now, user_input, intent, entities, response⟩
    (true, { s with turns := s.turns ++ [turn], last_activity := now,
                    context := merge_entities s.context entities })

/-- Iterated `add_turn` at a fixed clock, recording each call's result. -/
def add_turns (cfg : Config) (now : Nat) :
    ConversationSession → List String → ConversationSession × List Bool
  | s, [] => (s, [])
  | s, input :: rest =>
    let r := add_turn cfg now s input "PROVIDE_INFORMATION" [] ""
    let r' := add_turns cfg now r.2 rest
    (r'.1, r.1 :: r'.2)

end ContextTracker

/-! ## Dates

`datetime.date` values and the pieces of `datetime.strptime` exercised by
`BaseWorkflow._format_date` (proleptic Gregorian calendar, formats
`%Y-%m-%d`, `%d-%m-%Y`, `%d/%m/%Y`, `%d %b %Y`, `%d %B %Y`, `%B %d, %Y`).
`strptime` requires the whole string to match; a literal space in a
format matches one or more white-space characters; `%Y` is exactly four
digits; `%d`/`%m` are one or two digits in range (no `00`); month names
are matched case-insensitively; an out-of-range day raises and the
format fails. -/

namespace PyDateM

structure PyDate where
  year : Nat
  month : Nat
  day : Nat
  deriving Repr, DecidableEq

def isLeap (y : Nat) : Bool := (y % 4 == 0 && y % 100 != 0) || y % 400 == 0

def daysInMonth (y m : Nat) : Nat :=
  if m = 2 then (if isLeap y then 29 else 28)
  else if m = 4 || m = 6 || m = 9 || m = 11 then 30
  else 31

def nextDay (d : PyDate) : PyDate :=
  if d.day < daysInMonth d.year d.month then ⟨d.year, d.month, d.day + 1⟩
  else if d.month < 12 then ⟨d.year, d.month + 1, 1⟩
  else ⟨d.year + 1, 1, 1⟩

/-- `date + timedelta(days=n)`. -/
def addDays (d : PyDate) : Nat → PyDate
  | 0 => d
  | n + 1 => addDays (nextDay d) n

def pad2 (n : Nat) : String := if n < 10 then "0" ++ toString n else toString n

def pad4 (n : Nat) : String :=
  if n < 10 then "000" ++ toString n
  else if n < 100 then "00" ++ toString n
  else if n < 1000 then "0" ++ toString n
  else toString n

/-- `date.isoformat()`. -/
def isoformat (d : PyDate) : String :=
  pad4 d.year ++ "-" ++ pad2 d.month ++ "-" ++ pad2 d.day

/-- Strict calendar ordering (earlier-than). -/
def dateLt (a b : PyDate) : Bool :=
  a.year < b.year ||
  (a.year == b.year && (a.month < b.month ||
    (a.month == b.month && a.day < b.day)))

/-- The maximal leading digit run. -/
def takeDigitRun (l : List Char) : List Char × List Char :=
  (l.takeWhile Char.isDigit, l.dropWhile Char.isDigit)

def digitsToNat (g : List Char) : Nat :=
  g.foldl (fun a c => a * 10 + (c.toNat - 48)) 0

/-- `%d` / `%m`: one or two digits followed by a non-digit; backtracking
into a shorter prefix of a digit run always fails on the following
literal, so the whole run (of length 1 or 2) is the number. -/
def takeNum2 (l : List Char) : Option (Nat × List Char) :=
  match takeDigitRun l with
  | (g, rest) =>
    if g.length = 1 || g.length = 2 then some (digitsToNat g, rest) else none

/-- `%Y`: exactly four digits (a fifth digit makes the following
literal or end-of-input check fail, exactly as in `strptime`). -/
def takeNum4 (l : List Char) : Option (Nat × List Char) :=
  match takeDigitRun l with
  | (g, rest) => if g.length = 4 then some (digitsToNat g, rest) else none

/-- A literal character of the format. -/
def takeLit (c : Char) : List Char → Option (List Char)
  | x :: rest => if x = c then some rest else none
  | [] => none

/-- A (literal) space in the format: `\s+`. -/
def takeWs (l : List Char) : Option (List Char) :=
  match l with
  | c :: rest => if PyStr.pyIsSpace c then some (rest.dropWhile PyStr.pyIsSpace) else none
  | [] => none

def MONTH_ABBRS : List (String × Nat) :=
  [("jan", 1), ("feb", 2), ("mar", 3), ("apr", 4), ("may", 5), ("jun", 6),
   ("jul", 7), ("aug", 8), ("sep", 9), ("oct", 10), ("nov", 11), ("dec", 12)]

def MONTH_NAMES : List (String × Nat) :=
  [("january", 1), ("february", 2), ("march", 3), ("april", 4), ("may", 5),
   ("june", 6), ("july", 7), ("august", 8), ("september", 9), ("october", 10),
   ("november", 11), ("december", 12)]

/-- `%b` / `%B`: case-insensitive month name (no name in either list is
a prefix of another in the same list). -/
def takeMonthName (names : List (String × Nat)) (l : List Char) : Option (Nat × List Char) :=
  match names with
  | [] => none
  | (nm, n) :: rest =>
    if nm.data.isPrefixOf (l.map Char.toLower) then some (n, l.drop nm.data.length)
    else takeMonthName rest l

/-- `datetime(year, month, day)` range validation (month range is already
enforced by the directive patterns; an out-of-range day or year 0 raises
`ValueError` and fails the format). -/
def checkDate (y m d : Nat) : Option (Nat × Nat × Nat) :=
  if 1 ≤ y && 1 ≤ m && m ≤ 12 && 1 ≤ d && d ≤ daysInMonth y m then some (y, m, d)
  else none

def parseYmd (l : List Char) : Option (Nat × Nat × Nat) := do
  let (y, r1) ← takeNum4 l
  let r2 ← takeLit '-' r1
  let (m, r3) ← takeNum2 r2
  let r4 ← takeLit '-' r3
  let (d, r5) ← takeNum2 r4
  if r5.isEmpty then checkDate y m d else none

def parseDmySep (sep : Char) (l : List Char) : Option (Nat × Nat × Nat) := do
  let (d, r1) ← takeNum2 l
  let r2 ← takeLit sep r1
  let (m, r3) ← takeNum2 r2
  let r4 ← takeLit sep r3
  let (y, r5) ← takeNum4 r4
  if r5.isEmpty then checkDate y m d else none

def parseDMonY (names : List (String × Nat)) (l : List Char) : Option (Nat × Nat × Nat) := do
  let (d, r1) ← takeNum2 l
  let r2 ← takeWs r1
  let (m, r3) ← takeMonthName names r2
  let r4 ← takeWs r3
  let (y, r5) ← takeNum4 r4
  if r5.isEmpty then checkDate y m d else none

def parseMonDY (l : List Char) : Option (Nat × Nat × Nat) := do
  let (m, r1) ← takeMonthName MONTH_NAMES l
  let r2 ← takeWs r1
  let (d, r3) ← takeNum2 r2
  let r4 ← takeLit ',' r3
  let r5 ← takeWs r4
  let (y, r6) ← takeNum4 r5
  if r6.isEmpty then checkDate y m d else none

/-- The `formats` list of `BaseWorkflow._format_date` (base.py lines
195–202), tried in order. -/
def tryFormats (l : List Char) : Option (Nat × Nat × Nat) :=
  match parseYmd l with
  | some r => some r
  | none =>
    match parseDmySep '-' l with
    | some r => some r
    | none =>
      match parseDmySep '/' l with
      | some r => some r
      | none =>
        match parseDMonY MONTH_ABBRS l with
        | some r => some r
        | none =>
          match parseDMonY MONTH_NAMES l with
          | some r => some r
          | none => parseMonDY l

end PyDateM

/-! ## Base workflow helpers (`app/orchestration/workflows/base.py`) -/

namespace BaseWorkflow

open PyDateM

/-- `BaseWorkflow._validate_phone` (base.py lines 163–177):
`re.sub(r'\D', '', phone)` then length-based normalization. -/
def validate_phone (phone : String) : Option String :=
  let digits : String := ⟨phone.data.filter Char.isDigit⟩
  if digits.length = 10 then some digits
  else if digits.length = 12 && PyStr.strStartsWith digits "91" then
    some (PyStr.strDrop digits 2)
  else if digits.length = 11 && PyStr.strStartsWith digits "0" then
    some (PyStr.strDrop digits 1)
  else none

/-- `BaseWorkflow._format_date` (base.py lines 179–211).  Relative
tokens are compared against the lower-cased stripped input; the
`strptime` formats are tried on the original string.  NOTE: unlike
`EntityValidator.validate_date`, there is no `allow_past` /
`max_future_days` policy — no comparison with `today` occurs. -/
def format_date (today : PyDate) (date_str : String) : Option String :=
  let lower := PyStr.pyStrip (PyStr.pyLower date_str)
  if lower = "today" then some (isoformat today)
  else if lower = "tomorrow" then some (isoformat (addDays today 1))
  else if PyStr.strContains lower "next week" then some (isoformat (addDays today 7))
  else
    match tryFormats date_str.data with
    | some (y, m, d) => some (isoformat ⟨y, m, d⟩)
    | none => none

end BaseWorkflow

/-! ## Appointment booking workflow
(`app/orchestration/workflows/appointment_booking.py`,
`AppointmentBookingWorkflow._book_appointment`, lines 51–359)

The HIS client is an oracle (`Backend`); every backend invocation made
by the run is recorded in order in the second component of the result.
The straight-line Python function with early returns is split at its
step boundaries into `book_step2` … `book_step6`; the threaded local
variables (`patient_id`, `phone`, `department`, `department_id`,
`doctor_id`, `doctor_name`, `available_doctors`) are passed along
explicitly. -/

namespace AppointmentBooking

open PyDateM

/-- `WorkflowResult` (models/responses.py lines 52–60), without the
`api_calls_made` field (the calls are recorded by the embedding itself). -/
structure WorkflowResultM where
  success : Bool
  response_text : String
  updated_context : Bag := []
  is_complete : Bool := false
  requires_human : Bool := false
  error : Option String := none

/-- One backend invocation. -/
inductive ApiCall where
  | searchPatients (query : String)
  | getDepartments
  | getDepartmentDoctors (department_id : PyVal)
  | createAppointment (data : Bag)

/-- The subset of `HISClient` the booking workflow calls, as an oracle.
`Except` failure models any raised exception. -/
structure Backend where
  searchPatients : String → Except String (List Bag)
  getDepartments : Unit → Except String (List DeptR)
  getDepartmentDoctors : PyVal → Except String (List DoctorR)
  createAppointment : Bag → Except String Bag

/-- Step 6 (lines 303–359): build the appointment payload and call
`create_appointment`. -/
def book_step6 (B : Backend) (entities : Bag)
    (patient_id department_id doctor_id fd : PyVal) (calls : List ApiCall) :
    WorkflowResultM × List ApiCall :=
  let data0 : Bag :=
    [("patient", patient_id), ("department", department_id),
     ("scheduledDate", fd), ("type", PyVal.str "opd")]
  let data1 := if doctor_id.truthy then data0.set "doctor" doctor_id else data0
  let data2 :=
    if (entities.get "chief_complaint").truthy then
      data1.set "chiefComplaint" (entities.get "chief_complaint")
    else data1
  match B.createAppointment data2 with
  | .ok result =>
    ({ success := true,
       response_text := "Your appointment is confirmed! Appointment number: " ++
         (result.get "appointmentNumber").asStr ++ ", Token: " ++
         (result.get "tokenNumber").asStr ++
         ". Please arrive 15 minutes before your scheduled time. Is there anything else I can help with?",
       is_complete := true,
       updated_context := [("appointment", PyVal.dict result)] },
     calls ++ [.createAppointment data2])
  | .error e =>
    ({ success := false,
       response_text := "I couldn\x27t book the appointment. Would you like me to connect you to the reception desk?",
       is_complete := false, requires_human := true, error := some e },
     calls ++ [.createAppointment data2])

/-- Steps 4 and 5 (lines 233–301): resolve the date, then ask for
confirmation or book. -/
def book_step45 (B : Backend) (today : PyDate) (entities context wf : Bag)
    (patient_id department department_id doctor_id doctor_name : PyVal)
    (avDocs : List DoctorR) (calls : List ApiCall) :
    WorkflowResultM × List ApiCall :=
  let preferred := entities.get "preferred_date"
  let fd0 : PyVal :=
    if preferred.truthy then
      match BaseWorkflow.format_date today preferred.asStr with
      | some s => PyVal.str s
      | none => PyVal.none
    else PyVal.none
  let fd := if fd0.truthy then fd0 else wf.get "scheduled_date"
  if !fd.truthy then
    ({ success := true,
       response_text := "When would you like to schedule the appointment? You can say today, tomorrow, or a specific date.",
       is_complete := false,
       updated_context :=
         [("step", .str "need_date"), ("department_id", department_id),
          ("department", department), ("doctor_id", doctor_id),
          ("doctor_name", doctor_name), ("doctor_offered", .bool true),
          ("available_doctors", .doctorList avDocs), ("patient_id", patient_id)] },
     calls)
  else
    let is_confirmed :=
      (entities.get "confirmed").pyOr
        ((context.get "confirmed").pyOr (wf.get "confirmed"))
    if !is_confirmed.truthy then
      ({ success := true,
         response_text := "Let me confirm: Appointment in " ++ department.asStr ++
           (if doctor_name.truthy then " with " ++ doctor_name.asStr else "") ++
           " on " ++ fd.asStr ++ ". Shall I book this?",
         is_complete := false,
         updated_context :=
           [("step", .str "awaiting_confirmation"), ("patient_id", patient_id),
            ("department_id", department_id), ("department", department),
            ("doctor_id", doctor_id), ("doctor_name", doctor_name),
            ("doctor_offered", .bool true),
            ("available_doctors", .doctorList avDocs), ("scheduled_date", fd)] },
       calls)
    else
      book_step6 B entities patient_id department_id doctor_id fd calls

/-- Step 3 (lines 165–231): doctor resolution from the stored
`available_doctors`, then the one-time doctor offer. -/
def book_step3 (B : Backend) (today : PyDate) (entities context wf : Bag)
    (patient_id department department_id : PyVal) (calls : List ApiCall) :
    WorkflowResultM × List ApiCall :=
  let doctor_id0 :=
    (entities.get "doctor_id").pyOr
      ((context.get "doctor_id").pyOr (wf.get "doctor_id"))
  let doctor_name0 := (entities.get "doctor_name").pyOr (wf.get "doctor_name")
  let avDocs : List DoctorR :=
    match (wf.get "available_doctors").pyOr (entities.get "available_doctors") with
    | .doctorList ds => ds
    | _ => []
  let uil := PyStr.pyLower ((entities.get "_raw_input").asStr)
  let dn : PyVal × PyVal :=
    if !doctor_id0.truthy && !avDocs.isEmpty then
      match avDocs.find? (fun doc =>
          let fn := PyStr.pyLower doc.firstName
          let ln := PyStr.pyLower doc.lastName
          PyStr.strContains uil fn || PyStr.strContains uil ln ||
            PyStr.strContains uil (fn ++ " " ++ ln)) with
      | some doc =>
        (PyVal.ofOptStr doc.id, PyVal.str (doc.firstName ++ " " ++ doc.lastName))
      | none =>
        if avDocs.length = 1 &&
            (PyStr.strContains uil "yes" || PyStr.strContains uil "book") then
          match avDocs with
          | doc :: _ =>
            (PyVal.ofOptStr doc.id, PyVal.str (doc.firstName ++ " " ++ doc.lastName))
          | [] => (doctor_id0, doctor_name0)
        else (doctor_id0, doctor_name0)
    else (doctor_id0, doctor_name0)
  let doctor_id1 := dn.1
  let doctor_name1 := dn.2
  let doctor_offered := (context.get "doctor_offered").pyOr (wf.get "doctor_offered")
  if department_id.truthy && !doctor_id1.truthy && !doctor_offered.truthy then
    match B.getDepartmentDoctors department_id with
    | .ok doctors =>
      if !doctors.isEmpty then
        ({ success := true,
           response_text := "We have " ++ toString doctors.length ++ " doctors in " ++
             department.asStr ++ ". Would you like to see: " ++
             String.intercalate ", "
               ((doctors.take 3).map fun d => "Dr. " ++ d.firstName ++ " " ++ d.lastName) ++
             ", or any available doctor?",
           is_complete := false,
           updated_context :=
             [("step", .str "select_doctor"),
              ("available_doctors", .doctorList doctors),
              ("doctor_offered", .bool true), ("department_id", department_id),
              ("department", department), ("patient_id", patient_id)] },
         calls ++ [.getDepartmentDoctors department_id])
      else
        book_step45 B today entities context wf patient_id department department_id
          doctor_id1 doctor_name1 avDocs (calls ++ [.getDepartmentDoctors department_id])
    | .error _ =>
      book_step45 B today entities context wf patient_id department department_id
        doctor_id1 doctor_name1 avDocs (calls ++ [.getDepartmentDoctors department_id])
  else
    book_step45 B today entities context wf patient_id department department_id
      doctor_id1 doctor_name1 avDocs calls

/-- Step 2 (lines 116–163): department resolution. -/
def book_step2 (B : Backend) (today : PyDate) (entities context collected wf : Bag)
    (patient_id phone : PyVal) (calls : List ApiCall) :
    WorkflowResultM × List ApiCall :=
  let department0 :=
    (entities.get "department").pyOr
      ((context.get "department").pyOr
        ((collected.get "department").pyOr (wf.get "department")))
  let department_id0 :=
    (entities.get "department_id").pyOr
      ((context.get "department_id").pyOr
        ((collected.get "department_id").pyOr (wf.get "department_id")))
  if !department_id0.truthy then
    if department0.truthy then
      match B.getDepartments () with
      | .ok departments =>
        match departments.find? (fun dept =>
            PyStr.strContains (PyStr.pyLower dept.name)
              (PyStr.pyLower department0.asStr)) with
        | some matched =>
          book_step3 B today entities context wf patient_id
            (PyVal.str matched.name) (PyVal.ofOptStr matched.id)
            (calls ++ [.getDepartments])
        | none =>
          ({ success := true,
             response_text := "I couldn\x27t find that department. We have: " ++
               String.intercalate ", " ((departments.take 5).map fun d => d.name) ++
               ". Which one would you like?",
             is_complete := false,
             updated_context :=
               [("step", .str "select_department"),
                ("available_departments", .deptList departments),
                ("phone", phone), ("patient_id", patient_id)] },
           calls ++ [.getDepartments])
      | .error _ =>
        ({ success := true,
           response_text := "When would you like to schedule the appointment? You can say today, tomorrow, or a specific date.",
           is_complete := false,
           updated_context :=
             [("step", .str "need_date"), ("phone", phone),
              ("patient_id", patient_id), ("department", department0)] },
         calls ++ [.getDepartments])
    else
      ({ success := true,
         response_text := "Which department would you like to visit? For example, General Medicine, Cardiology, Orthopedics, or ENT.",
         is_complete := false,
         updated_context :=
           [("step", .str "need_department"), ("phone", phone),
            ("patient_id", patient_id)] },
       calls)
  else
    book_step3 B today entities context wf patient_id department0 department_id0 calls

/-- `_book_appointment` entry (lines 51–114): patient resolution, then
step 2 onward. -/
def book_appointment (B : Backend) (today : PyDate) (entities context : Bag) :
    WorkflowResultM × List ApiCall :=
  let collected := context.getBag "collected_entities"
  let wf := context.getBag "workflow_state"
  let patient0 :=
    (context.get "patient").pyOr
      ((collected.get "patient").pyOr (wf.get "patient"))
  let patient_id0 :=
    (entities.get "patient_id").pyOr
      ((context.get "patient_id").pyOr
        ((collected.get "patient_id").pyOr (wf.get "patient_id")))
  let phone :=
    (entities.get "phone").pyOr
      ((context.get "phone").pyOr
        ((collected.get "phone").pyOr (wf.get "phone")))
  if !patient0.truthy && !patient_id0.truthy then
    if phone.truthy then
      match BaseWorkflow.validate_phone phone.asStr with
      | some vphone =>
        match B.searchPatients vphone with
        | .ok (p :: _) =>
          book_step2 B today entities context collected wf (Bag.get p "_id") phone
            [.searchPatients vphone]
        | .ok [] =>
          ({ success := true,
             response_text := "I couldn\x27t find a patient with that phone number. Are you a new patient? I can help you register first.",
             is_complete := false,
             updated_context := [("step", .str "no_patient_found"), ("phone", phone)] },
           [.searchPatients vphone])
        | .error _ =>
          ({ success := true,
             response_text := "Which department would you like to visit? For example, General Medicine, Cardiology, Orthopedics, or ENT.",
             is_complete := false,
             updated_context := [("step", .str "need_department"), ("phone", phone)] },
           [.searchPatients vphone])
      | none =>
        book_step2 B today entities context collected wf patient_id0 phone []
    else
      ({ success := true,
         response_text := "To book an appointment, I\x27ll need your patient ID or registered phone number.",
         is_complete := false,
         updated_context := [("step", .str "need_patient_id")] },
       [])
  else
    book_step2 B today entities context collected wf patient_id0 phone []

end AppointmentBooking

/-! ## Intent classifier fallback (`app/conversation/intent_classifier.py`) -/

namespace IntentClassifier

open PyDateM

/-- `IntentResult` (models/responses.py lines 44–49); `intent` is a plain
string field, not restricted to the `Intent` enum. -/
structure IntentResultM where
  intent : String
  confidence : ℚ
  entities : Bag := []
  required_missing_fields : List String := []

/-- The `Intent` enum (models/intents.py lines 11–55): the closed intent
vocabulary of the data model. -/
def INTENT_VOCABULARY : List String :=
  ["GREETING", "GOODBYE", "HELP", "UNCLEAR",
   "REGISTER_PATIENT", "FIND_PATIENT", "UPDATE_PATIENT",
   "BOOK_APPOINTMENT", "RESCHEDULE_APPOINTMENT", "CANCEL_APPOINTMENT",
   "CHECK_APPOINTMENT_STATUS", "OPD_CHECKIN", "OPD_QUEUE_STATUS",
   "REQUEST_ADMISSION", "CHECK_BED_AVAILABILITY", "REQUEST_BED_ALLOCATION",
   "BOOK_LAB_TEST", "CHECK_LAB_STATUS", "CHECK_BILL_STATUS",
   "GENERAL_STATUS_INQUIRY", "REPORT_EMERGENCY", "ESCALATE_TO_HUMAN",
   "CONFIRM_YES", "CONFIRM_NO", "PROVIDE_INFORMATION"]

/-- Generic scan for `re.search`: try the matcher at every position,
left to right, threading the previous character for `\b`. -/
def scanFor {α} (m : Option Char → List Char → Option α) :
    Option Char → List Char → Option α
  | _, [] => none
  | prev, c :: rest =>
    match m prev (c :: rest) with
    | some r => some r
    | none => scanFor m (some c) rest

def isDateSep (c : Char) : Bool := c = '-' || c = '/' || c = '.'

/-- The date token pattern (classifier line 330): one or two digits, a
separator (dash, slash or dot), one or two digits, a separator, two to
four digits, with `\b` at both ends.  Each digit group is a maximal run
(a shorter backtracked prefix always leaves a digit in front of a
non-digit pattern element). -/
def matchDateAt (prev : Option Char) (l : List Char) : Option (List Char) :=
  let p1 := takeDigitRun l
  if SafetyGuardrails.boundaryBefore prev &&
      (p1.1.length = 1 || p1.1.length = 2) then
    match p1.2 with
    | s1 :: r2 =>
      if isDateSep s1 then
        let p2 := takeDigitRun r2
        if p2.1.length = 1 || p2.1.length = 2 then
          match p2.2 with
          | s2 :: r4 =>
            if isDateSep s2 then
              let p3 := takeDigitRun r4
              if (2 ≤ p3.1.length && p3.1.length ≤ 4) &&
                  SafetyGuardrails.boundaryAfter p3.2 then
                some (p1.1 ++ s1 :: p2.1 ++ s2 :: p3.1)
              else none
            else none
          | [] => none
        else none
      else none
    | [] => none
  else none

/-- The optional `(?:\s?[ap]m)` of the time pattern, including the
trailing `\b` (case-insensitive). -/
def tryAmPmTail : List Char → Option (List Char × List Char)
  | [] => none
  | c :: rest =>
    if PyStr.pyIsSpace c then
      match rest with
      | a :: m :: rest2 =>
        if (a.toLower = 'a' || a.toLower = 'p') && m.toLower = 'm' &&
            SafetyGuardrails.boundaryAfter rest2 then
          some ([c, a, m], rest2)
        else none
      | _ => none
    else
      match c :: rest with
      | a :: m :: rest2 =>
        if (a.toLower = 'a' || a.toLower = 'p') && m.toLower = 'm' &&
            SafetyGuardrails.boundaryAfter rest2 then
          some ([a, m], rest2)
        else none
      | _ => none

/-- `\b\d{1,2}:\d{2}(?:\s?[ap]m)?\b` at the current position
(classifier line 347). -/
def matchTimeAt (prev : Option Char) (l : List Char) : Option (List Char) :=
  let p1 := takeDigitRun l
  if SafetyGuardrails.boundaryBefore prev &&
      (p1.1.length = 1 || p1.1.length = 2) then
    match p1.2 with
    | ':' :: r2 =>
      let p2 := takeDigitRun r2
      if p2.1.length = 2 then
        match tryAmPmTail p2.2 with
        | some (g, _) => some (p1.1 ++ ':' :: p2.1 ++ g)
        | none =>
          if SafetyGuardrails.boundaryAfter p2.2 then some (p1.1 ++ ':' :: p2.1)
          else none
      else none
    | _ => none
  else none

/-- `re.sub(r'[\s\-\.]', '', text)` (classifier line 356). -/
def normalizePhoneText (text : String) : List Char :=
  text.data.filter fun c => !(PyStr.pyIsSpace c || c = '-' || c = '.')

/-- `\b(\d{10})\b` at the current position (classifier line 357). -/
def matchPhone10At (prev : Option Char) (l : List Char) : Option (List Char) :=
  let p := takeDigitRun l
  if SafetyGuardrails.boundaryBefore prev && p.1.length = 10 &&
      SafetyGuardrails.boundaryAfter p.2 then
    some p.1
  else none

def containsAnyOf (hay : String) (needles : List String) : Bool :=
  needles.any fun n => PyStr.strContains hay n

def COMMON_WORDS : List String :=
  ["i", "a", "the", "is", "my", "for", "to", "and", "or", "in", "on", "at"]

def fallbackDepartments : List String :=
  ["general medicine", "cardiology", "orthopedics", "ent", "dermatology",
   "neurology", "pediatrics", "gynecology", "ophthalmology", "psychiatry",
   "surgery", "urology", "gastroenterology", "pulmonology", "nephrology"]

def headIsUpper (w : String) : Bool :=
  match w.data with
  | c :: _ => c.isUpper
  | [] => false

/-- The tail of `_fallback_classification` (classifier lines 365–384)
with the local variable `words = text.split()` passed as a parameter. -/
def fallback_words_branch (text : String) (words : List String) : IntentResultM :=
  if words.length ≤ 3 &&
      (words.filter fun w =>
          !COMMON_WORDS.contains (PyStr.pyLower w)).all headIsUpper then
    { intent := "PROVIDE_INFORMATION", confidence := mkRat 70 100,
      entities := [("name", .str (PyStr.pyStrip text))] }
  else if words.length ≤ 3 then
    { intent := "PROVIDE_INFORMATION", confidence := mkRat 50 100,
      entities := [("value", .str (PyStr.pyStrip text))] }
  else
    { intent := "UNCLEAR", confidence := mkRat 30 100 }

/-- Body of `_fallback_classification` with the local variable
`text_lower = text.lower().strip()` (classifier line 274) passed as a
parameter. -/
def fallback_classification_on (text_lower : String) (text : String) : IntentResultM :=
  if containsAnyOf text_lower ["hello", "hi", "good morning", "good afternoon"] then
    { intent := "GREETING", confidence := mkRat 80 100 }
  else if containsAnyOf text_lower ["bye", "goodbye", "thank you", "thanks"] then
    { intent := "GOODBYE", confidence := mkRat 80 100 }
  else if containsAnyOf text_lower ["emergency", "urgent", "accident", "heart attack"] then
    { intent := "REPORT_EMERGENCY", confidence := mkRat 90 100 }
  else if containsAnyOf text_lower ["status", "check my", "where is", "result", "report"] then
    { intent := "CHECK_STATUS", confidence := mkRat 70 100 }
  else if containsAnyOf text_lower ["appointment", "book", "schedule"] then
    { intent := "BOOK_APPOINTMENT", confidence := mkRat 70 100 }
  else if containsAnyOf text_lower ["register", "new patient"] then
    { intent := "REGISTER_PATIENT", confidence := mkRat 70 100 }
  else if containsAnyOf text_lower ["check in", "arrived", "here for"] then
    { intent := "OPD_CHECKIN", confidence := mkRat 70 100 }
  else if containsAnyOf text_lower ["bed", "room", "admission"] then
    { intent := "CHECK_BED_AVAILABILITY", confidence := mkRat 60 100 }
  else if containsAnyOf text_lower ["lab", "test", "blood"] &&
      !PyStr.strContains text_lower "result" then
    { intent := "BOOK_LAB_TEST", confidence := mkRat 60 100 }
  else if containsAnyOf text_lower ["bill", "payment", "owe"] then
    { intent := "CHECK_BILL_STATUS", confidence := mkRat 60 100 }
  else if containsAnyOf text_lower ["speak to", "human", "person", "transfer"] then
    { intent := "ESCALATE_TO_HUMAN", confidence := mkRat 80 100 }
  else if fallbackDepartments.contains text_lower ||
      fallbackDepartments.any (fun d => PyStr.strContains text_lower d) then
    { intent := "PROVIDE_INFORMATION", confidence := mkRat 85 100,
      entities := [("department", .str (PyStr.pyStrip text))] }
  else if ["yes", "yeah", "yep", "correct", "right", "ok", "okay", "sure"].contains text_lower then
    { intent := "CONFIRM_YES", confidence := mkRat 85 100 }
  else if ["no", "nope", "cancel", "wrong", "incorrect"].contains text_lower then
    { intent := "CONFIRM_NO", confidence := mkRat 85 100 }
  else
    match scanFor matchDateAt none text.data with
    | some m =>
      { intent := "PROVIDE_INFORMATION", confidence := mkRat 85 100,
        entities := [("date", .str ⟨m⟩), ("preferred_date", .str ⟨m⟩)] }
    | none =>
      if containsAnyOf text_lower ["today", "tomorrow", "next week", "next monday"] then
        { intent := "PROVIDE_INFORMATION", confidence := mkRat 85 100,
          entities := [("date", .str (PyStr.pyStrip text)),
                       ("preferred_date", .str (PyStr.pyStrip text))] }
      else
        match scanFor matchTimeAt none text.data with
        | some m =>
          { intent := "PROVIDE_INFORMATION", confidence := mkRat 85 100,
            entities := [("time", .str ⟨m⟩), ("preferred_time", .str ⟨m⟩)] }
        | none =>
          match scanFor matchPhone10At none (normalizePhoneText text) with
          | some run =>
            { intent := "PROVIDE_INFORMATION", confidence := mkRat 80 100,
              entities := [("phone", .str ⟨run⟩)] }
          | none => fallback_words_branch text (PyStr.pySplit text)

/-- `_fallback_classification` (intent_classifier.py lines 264–384). -/
def fallback_classification (text : String) : IntentResultM :=
  fallback_classification_on (PyStr.pyStrip (PyStr.pyLower text)) text

end IntentClassifier

/-! ## The `/conversation/process` pipeline (`app/main.py` lines 257–380) -/

namespace MainApp

open IntentClassifier AppointmentBooking

/-- `ConversationResponse` (models/responses.py lines 31–41), the fields
produced by `process_conversation`. -/
structure ConversationResponseM where
  session_id : String
  intent : String
  entities : Bag
  response_text : String
  context : Bag
  is_complete : Bool
  requires_human : Bool

/-- `process_conversation` (main.py lines 257–380).  The intent
classifier (with its retry wrapper), the entity
validation/normalization block (main.py lines 313–330 — pure data
transformation of the entity bag with no early return and no influence
on the safety gate) and the workflow engine are oracles.  The second
component lists the intents the workflow engine was invoked with
(empty when no workflow executed). -/
def process_conversation
    (classify : String → Bag → IntentResultM)
    (normalize : Bag → Bag)
    (engine : String → Bag → Bag → WorkflowResultM)
    (session_id user_input : String) (context : Bag) :
    ConversationResponseM × List String :=
  let ir := classify user_input context
  let safety :=
    SafetyGuardrails.get_safe_response ir.intent ir.confidence user_input context
  let intent_to_use :=
    match safety.intent_override with
    | some s => if s.isEmpty then ir.intent else s
    | none => ir.intent
  if safety.action = .clarify then
    ({ session_id := session_id, intent := ir.intent, entities := ir.entities,
       response_text := safety.message.getD "", context := context,
       is_complete := false, requires_human := false }, [])
  else
    let final_entities := (normalize ir.entities).set "_raw_input" (.str user_input)
    let wr := engine intent_to_use final_entities context
    ({ session_id := session_id, intent := intent_to_use,
       entities := final_entities, response_text := wr.response_text,
       context := wr.updated_context, is_complete := wr.is_complete,
       requires_human := if safety.action = .escalate then true else wr.requires_human },
     [intent_to_use])

end MainApp

/-! ## Concrete fixtures for the booking pipeline -/

/-- A fixed current day for booking runs. -/
def today0 : PyDateM.PyDate := ⟨2026, 10, 12⟩

/-- A backend oracle whose `create_appointment` succeeds. -/
def B0 : AppointmentBooking.Backend :=
  { searchPatients := fun _ => .error "unused",
    getDepartments := fun _ => .error "unused",
    getDepartmentDoctors := fun _ => .error "unused",
    createAppointment := fun _ =>
      .ok [("appointmentNumber", .str "APT-1"), ("tokenNumber", .str "7")] }

/-- Entities of a confirmed booking request for a past date. -/
def ents0 : Bag :=
  [("preferred_date", .str "01-01-2020"), ("confirmed", .bool true)]

/-- A session context whose workflow state already resolved the
patient, department and doctor. -/
def ctx0 : Bag :=
  [("workflow_state", .dict
      [("patient_id", .str "P123456"), ("department_id", .str "D1"),
       ("department", .str "Cardiology"), ("doctor_id", .str "DOC1"),
       ("doctor_name", .str "Dr. Rao"), ("doctor_offered", .bool true)])]

/-- The appointment payload the run above sends to the backend. -/
def payload0 : Bag :=
  [("patient", .str "P123456"), ("department", .str "D1"),
   ("scheduledDate", .str "2020-01-01"), ("type", .str "opd"),
   ("doctor", .str "DOC1")]

/-! ## Concrete fixtures for the conversation pipeline -/

/-- A classified intent with MEDIUM confidence below the
CANCEL_APPOINTMENT threshold, so the confidence gate answers `confirm`. -/
def ir0 : IntentClassifier.IntentResultM :=
  { intent := "CANCEL_APPOINTMENT", confidence := mkRat 70 100 }

/-- A classifier oracle returning `ir0` for every input. -/
def classify0 : String → Bag → IntentClassifier.IntentResultM := fun _ _ => ir0

/-- An entity-normalization oracle that keeps the bag unchanged. -/
def normalize0 : Bag → Bag := fun b => b

/-- A workflow-engine oracle whose response text records the intent it
was invoked with. -/
def engine0 : String → Bag → Bag → AppointmentBooking.WorkflowResultM :=
  fun i _ _ => { success := true, response_text := "ENGINE " ++ i }

/-- The safety result for `ir0` on the harmless input "xyz". -/
def S0 : SafetyGuardrails.SafeResponse :=
  SafetyGuardrails.get_safe_response "CANCEL_APPOINTMENT" (mkRat 70 100) "xyz" []

/-! ## Theorems -/

/-! # Helper lemmas -/

theorem find?_isSome_of_exists {α} (p : α → Bool) (l : List α)
    (h : ∃ x ∈ l, p x = true) : (l.find? p).isSome = true := by
  obtain ⟨x, hx, hpx⟩ := h
  induction l with
  | nil => cases hx
  | cons a t ih =>
    rw [List.find?]
    cases hpa : p a with
    | true => rfl
    | false =>
      rcases List.mem_cons.mp hx with hx | hx
      · rw [hx] at hpx; rw [hpa] at hpx; cases hpx
      · exact ih hx

/-! # Claims -/

/-- C1: the claim says the RBAC allow-list is consulted before every
outbound request and a non-matching endpoint is never issued.  In the
code, `HISClient._request` issues every request unconditionally and
`RBACEnforcer.is_allowed` has no caller: `get_patient_bills` issues
`GET /billing/patient/HIS-2024-001`, an endpoint for which `is_allowed`
returns `false` (the allow-list only has `GET /billing/patients/*`). -/
theorem rbac_allowlist_not_consulted_on_request :
    (HISClient.get_patient_bills HISClient.okBackend true "HIS-2024-001").1 =
      [⟨"GET", "/billing/patient/HIS-2024-001"⟩] ∧
    RBACEnforcer.is_allowed "GET" "/billing/patient/HIS-2024-001" = false := by
  exact ⟨rfl, by decide⟩

/-- C2: any raw text containing an emergency keyword (case-insensitive
substring) makes `get_safe_response` return action `escalate`, intent
override `REPORT_EMERGENCY` and a suppressed (`None`) message, for every
intent, confidence and context. -/
theorem emergency_keywords_force_escalation
    (intent : String) (confidence : ℚ) (raw_text : String) (context : Bag)
    (h : ∃ kw ∈ SafetyGuardrails.EMERGENCY_KEYWORDS,
        PyStr.strContains (PyStr.pyLower raw_text) kw = true) :
    (SafetyGuardrails.get_safe_response intent confidence raw_text context).action =
      SafetyGuardrails.SafetyAction.escalate ∧
    (SafetyGuardrails.get_safe_response intent confidence raw_text context).intent_override =
      some "REPORT_EMERGENCY" ∧
    (SafetyGuardrails.get_safe_response intent confidence raw_text context).message =
      none := by
  have hfind := find?_isSome_of_exists
    (fun kw => PyStr.strContains (PyStr.pyLower raw_text) kw)
    SafetyGuardrails.EMERGENCY_KEYWORDS h
  obtain ⟨kw, hkw⟩ := Option.isSome_iff_exists.mp hfind
  simp only [SafetyGuardrails.get_safe_response, SafetyGuardrails.check_for_emergency, hkw]
  simp

theorem emergency_keywords_force_escalation_witness :
    (∃ kw ∈ SafetyGuardrails.EMERGENCY_KEYWORDS,
        PyStr.strContains (PyStr.pyLower "My father collapsed, send an ambulance") kw = true) ∧
    (SafetyGuardrails.get_safe_response "GREETING" 0.9
        "My father collapsed, send an ambulance" []).action =
      SafetyGuardrails.SafetyAction.escalate ∧
    (SafetyGuardrails.get_safe_response "GREETING" 0.9
        "My father collapsed, send an ambulance" []).intent_override =
      some "REPORT_EMERGENCY" ∧
    (SafetyGuardrails.get_safe_response "GREETING" 0.9
        "My father collapsed, send an ambulance" []).message = none :=
  ⟨⟨"collapse", by decide, by decide⟩,
   emergency_keywords_force_escalation "GREETING" 0.9
     "My father collapsed, send an ambulance" []
     ⟨"collapse", by decide, by decide⟩⟩

/-- C3 counterexample: at confidence exactly 0.50 — the configured
threshold of `REPORT_EMERGENCY` — the confidence gate returns `clarify`,
not `allow` (0.50 falls in the LOW band of `get_confidence_level`). -/
theorem emergency_threshold_confidence_clarifies :
    (SafetyGuardrails.check_intent_confidence "REPORT_EMERGENCY"
        (SafetyGuardrails.intent_threshold "REPORT_EMERGENCY")).1 =
      SafetyGuardrails.SafetyAction.clarify := by decide

/-- C3 amended: for every intent other than `REPORT_EMERGENCY` (whose
override 0.50 lies below the MEDIUM band), confidence exactly equal to
the intent's configured threshold resolves to ALLOW. -/
theorem confidence_at_threshold_allows (intent : String)
    (h : intent ≠ "REPORT_EMERGENCY") :
    (SafetyGuardrails.check_intent_confidence intent
        (SafetyGuardrails.intent_threshold intent)).1 =
      SafetyGuardrails.SafetyAction.allow := by
  by_cases h1 : intent = "REGISTER_PATIENT"
  · subst h1; decide
  by_cases h2 : intent = "BOOK_APPOINTMENT"
  · subst h2; decide
  by_cases h3 : intent = "REQUEST_BED_ALLOCATION"
  · subst h3; decide
  by_cases h4 : intent = "CANCEL_APPOINTMENT"
  · subst h4; decide
  have e1 : (intent == "REGISTER_PATIENT") = false := beq_eq_false_iff_ne.mpr h1
  have e2 : (intent == "BOOK_APPOINTMENT") = false := beq_eq_false_iff_ne.mpr h2
  have e3 : (intent == "REPORT_EMERGENCY") = false := beq_eq_false_iff_ne.mpr h
  have e4 : (intent == "REQUEST_BED_ALLOCATION") = false := beq_eq_false_iff_ne.mpr h3
  have e5 : (intent == "CANCEL_APPOINTMENT") = false := beq_eq_false_iff_ne.mpr h4
  have hth : SafetyGuardrails.intent_threshold intent = mkRat 65 100 := by
    simp only [SafetyGuardrails.intent_threshold,
      SafetyGuardrails.INTENT_CONFIDENCE_OVERRIDES,
      SafetyGuardrails.CONFIDENCE_THRESHOLDS, List.lookup, e1, e2, e3, e4, e5]
  unfold SafetyGuardrails.check_intent_confidence
  rw [hth]
  have hlev : SafetyGuardrails.get_confidence_level (mkRat 65 100) =
      SafetyGuardrails.ConfidenceLevel.medium := by decide
  rw [hlev]
  simp only [ge_iff_le, le_refl, if_true]

theorem confidence_at_threshold_allows_witness :
    "BOOK_APPOINTMENT" ≠ "REPORT_EMERGENCY" ∧
    (SafetyGuardrails.check_intent_confidence "BOOK_APPOINTMENT"
        (SafetyGuardrails.intent_threshold "BOOK_APPOINTMENT")).1 =
      SafetyGuardrails.SafetyAction.allow :=
  ⟨by decide, confidence_at_threshold_allows "BOOK_APPOINTMENT" (by decide)⟩

/-- C4 counterexample: masking is not idempotent.  Five space-separated
4-digit groups mask (via the Aadhaar pass) to `XXXX-XXXX-1234 1234 1234`,
which still contains an Aadhaar-shaped match and is masked again by a
second application. -/
theorem mask_sensitive_data_not_idempotent :
    SafetyGuardrails.mask_sensitive_data
        (SafetyGuardrails.mask_sensitive_data "1234 1234 1234 1234 1234") ≠
      SafetyGuardrails.mask_sensitive_data "1234 1234 1234 1234 1234" := by
  decide

theorem takeDigits_cons_none (n : Nat) (c : Char) (rest : List Char)
    (h : c.isDigit = false) :
    SafetyGuardrails.takeDigits (n + 1) (c :: rest) = none := by
  simp [SafetyGuardrails.takeDigits, h]

theorem matchAadhaar_none_of_nondigit (prev : Option Char) (c : Char)
    (rest : List Char) (h : c.isDigit = false) :
    SafetyGuardrails.matchAadhaar prev (c :: rest) = none := by
  simp [SafetyGuardrails.matchAadhaar, takeDigits_cons_none 3 c rest h]

theorem matchPhone_none_of_nondigit (prev : Option Char) (c : Char)
    (rest : List Char) (h : c.isDigit = false) :
    SafetyGuardrails.matchPhone prev (c :: rest) = none := by
  simp [SafetyGuardrails.matchPhone, takeDigits_cons_none 5 c rest h]

theorem matchCard_none_of_nondigit (prev : Option Char) (c : Char)
    (rest : List Char) (h : c.isDigit = false) :
    SafetyGuardrails.matchCard prev (c :: rest) = none := by
  simp [SafetyGuardrails.matchCard, takeDigits_cons_none 3 c rest h]

theorem subScan_copy
    (m : Option Char → List Char → Option (List Char × List Char))
    (repl : List Char → List Char)
    (hm : ∀ prev c rest, c.isDigit = false → m prev (c :: rest) = none) :
    ∀ (l : List Char) (prev : Option Char), (∀ c ∈ l, c.isDigit = false) →
      SafetyGuardrails.subScan m repl l.length prev l = l := by
  intro l
  induction l with
  | nil => intro prev _; rfl
  | cons c rest ih =>
    intro prev hl
    have hc : c.isDigit = false := hl c (List.mem_cons_self c rest)
    show SafetyGuardrails.subScan m repl (rest.length + 1) prev (c :: rest) = c :: rest
    rw [SafetyGuardrails.subScan, hm prev c rest hc]
    rw [ih (some c) (fun x hx => hl x (List.mem_cons_of_mem c hx))]

/-- C4 amended: `mask_sensitive_data` is not idempotent in general (see
the counterexample); on strings containing no digit it is the identity,
hence idempotent there. -/
theorem mask_sensitive_data_id_on_digit_free (s : String)
    (h : ∀ c ∈ s.data, c.isDigit = false) :
    SafetyGuardrails.mask_sensitive_data s = s ∧
    SafetyGuardrails.mask_sensitive_data (SafetyGuardrails.mask_sensitive_data s) =
      SafetyGuardrails.mask_sensitive_data s := by
  obtain ⟨l⟩ := s
  have hA : SafetyGuardrails.reSubAadhaar l = l :=
    subScan_copy _ _ matchAadhaar_none_of_nondigit l none h
  have hP : SafetyGuardrails.reSubPhone l = l :=
    subScan_copy _ _ matchPhone_none_of_nondigit l none h
  have hC : SafetyGuardrails.reSubCard l = l :=
    subScan_copy _ _ matchCard_none_of_nondigit l none h
  have h1 : SafetyGuardrails.mask_sensitive_data ⟨l⟩ = ⟨l⟩ := by
    show (⟨SafetyGuardrails.reSubCard (SafetyGuardrails.reSubPhone
      (SafetyGuardrails.reSubAadhaar l))⟩ : String) = ⟨l⟩
    rw [hA, hP, hC]
  exact ⟨h1, by rw [h1]; exact h1⟩

theorem mask_sensitive_data_id_on_digit_free_witness :
    (∀ c ∈ ("hello doctor" : String).data, c.isDigit = false) ∧
    (SafetyGuardrails.mask_sensitive_data "hello doctor" = "hello doctor" ∧
     SafetyGuardrails.mask_sensitive_data
        (SafetyGuardrails.mask_sensitive_data "hello doctor") =
       SafetyGuardrails.mask_sensitive_data "hello doctor") :=
  ⟨by decide, mask_sensitive_data_id_on_digit_free "hello doctor" (by decide)⟩

/-- C5 counterexample: `validate_phone` accepts `"01234567890"` via the
leading-zero pattern and normalizes it to `"1234567890"`, but
re-validating that normalized value is INVALID (it matches none of the
patterns, since it does not start with 6–9). -/
theorem validate_phone_roundtrip_fails_on_leading_zero :
    EntityValidator.validate_phone "01234567890" =
      (EntityValidator.ValidationResult.valid, some "1234567890", none) ∧
    (EntityValidator.validate_phone "1234567890").1 =
      EntityValidator.ValidationResult.invalid := by
  exact ⟨by decide, by decide⟩

theorem isDigit_of_six_nine (c : Char) (h1 : '6' ≤ c) (h2 : c ≤ '9') :
    c.isDigit = true := by
  unfold Char.isDigit
  rw [Char.le_def, UInt32.le_def, BitVec.le_def] at h1 h2
  have e6 : ('6' : Char).val.toBitVec.toNat = 54 := rfl
  have e9 : ('9' : Char).val.toBitVec.toNat = 57 := rfl
  rw [e6] at h1
  rw [e9] at h2
  simp only [ge_iff_le, Bool.and_eq_true, decide_eq_true_eq, UInt32.le_def, BitVec.le_def]
  have e48 : ((48 : UInt32)).toBitVec.toNat = 48 := rfl
  have e57 : ((57 : UInt32)).toBitVec.toNat = 57 := rfl
  rw [e48, e57]
  omega

theorem strip_pred_false_of_digit (c : Char) (h : c.isDigit = true) :
    (PyStr.pyIsSpace c || c = '-' || c = '(' || c = ')' || c = '+') = false := by
  by_contra hbad
  rw [Bool.not_eq_false] at hbad
  simp only [PyStr.pyIsSpace, Bool.or_eq_true, decide_eq_true_eq] at hbad
  have hcases : c = ' ' ∨ c = '\t' ∨ c = '\n' ∨ c = '\x0d' ∨ c = '\x0b' ∨
      c = '\x0c' ∨ c = '-' ∨ c = '(' ∨ c = ')' ∨ c = '+' := by tauto
  rcases hcases with h1 | h1 | h1 | h1 | h1 | h1 | h1 | h1 | h1 | h1 <;>
    (subst h1; exact absurd h (by decide))

theorem stripPhone_of_digits (n : String) (h : n.data.all Char.isDigit = true) :
    EntityValidator.stripPhone n = n := by
  obtain ⟨l⟩ := n
  show (⟨List.filter _ l⟩ : String) = ⟨l⟩
  have : List.filter (fun c =>
      !(PyStr.pyIsSpace c || c = '-' || c = '(' || c = ')' || c = '+')) l = l := by
    apply List.filter_eq_self.mpr
    intro a ha
    have hd : a.isDigit = true := by
      rw [List.all_eq_true] at h
      exact h a ha
    rw [strip_pred_false_of_digit a hd]
    rfl
  rw [this]

theorem mobile_shape (l : List Char)
    (h : EntityValidator.matchesMobilePattern l = true) :
    ∃ c rest, l = c :: rest ∧ ('6' ≤ c ∧ c ≤ '9') ∧
      rest.length = 9 ∧ rest.all Char.isDigit = true := by
  cases l with
  | nil => exact absurd h (by decide)
  | cons c rest =>
    simp only [EntityValidator.matchesMobilePattern, Bool.and_eq_true,
      beq_iff_eq, decide_eq_true_eq] at h
    exact ⟨c, rest, rfl, h.1.1, h.1.2, h.2⟩

theorem leading_zero_shape (l : List Char)
    (h : EntityValidator.matchesLeadingZeroPattern l = true) :
    ∃ rest, l = '0' :: rest ∧ rest.length = 10 ∧ rest.all Char.isDigit = true := by
  cases l with
  | nil => exact absurd h (by decide)
  | cons c rest =>
    simp only [EntityValidator.matchesLeadingZeroPattern, Bool.and_eq_true,
      beq_iff_eq, decide_eq_true_eq] at h
    exact ⟨rest, by rw [h.1.1], h.1.2, h.2⟩

theorem country_code_shape (l : List Char)
    (h : EntityValidator.matchesCountryCodePattern l = true) :
    ∃ rest, l = '9' :: '1' :: rest ∧ rest.length = 10 ∧
      rest.all Char.isDigit = true := by
  match l with
  | [] => exact absurd h (by decide)
  | [c] => simp [EntityValidator.matchesCountryCodePattern] at h
  | c1 :: c2 :: rest =>
    simp only [EntityValidator.matchesCountryCodePattern, Bool.and_eq_true,
      beq_iff_eq, decide_eq_true_eq] at h
    exact ⟨rest, by rw [h.1.1.1, h.1.1.2], h.1.2, h.2⟩

theorem plus_country_len (l : List Char)
    (h : EntityValidator.matchesPlusCountryPattern l = true) :
    l.length = 13 := by
  match l with
  | [] => exact absurd h (by decide)
  | [c] => simp [EntityValidator.matchesPlusCountryPattern] at h
  | [c1, c2] => simp [EntityValidator.matchesPlusCountryPattern] at h
  | c0 :: c1 :: c2 :: rest =>
    simp only [EntityValidator.matchesPlusCountryPattern, Bool.and_eq_true,
      beq_iff_eq, decide_eq_true_eq] at h
    simp [h.1.2]

theorem phoneLoop_valid_shape (cleaned n : String)
    (h : EntityValidator.phoneLoop cleaned EntityValidator.PHONE_PATTERNS = some n) :
    n.data.length = 10 ∧ n.data.all Char.isDigit = true := by
  unfold EntityValidator.PHONE_PATTERNS at h
  cases hp1 : EntityValidator.matchesMobilePattern cleaned.data with
  | true =>
    obtain ⟨c, rest, hdata, hbound, hlen, hdig⟩ := mobile_shape cleaned.data hp1
    have hclen : cleaned.length = 10 := by
      show cleaned.data.length = 10
      rw [hdata, List.length_cons, hlen]
    have hnorm : EntityValidator.normalizeCleaned cleaned = some cleaned := by
      simp [EntityValidator.normalizeCleaned, hclen]
    rw [EntityValidator.phoneLoop, if_pos hp1, hnorm] at h
    have hn : n = cleaned := by
      cases h; rfl
    subst hn
    constructor
    · rw [hdata, List.length_cons, hlen]
    · rw [hdata]
      simp only [List.all_cons, Bool.and_eq_true]
      exact ⟨isDigit_of_six_nine c hbound.1 hbound.2, hdig⟩
  | false =>
    rw [EntityValidator.phoneLoop, if_neg (by rw [hp1]; exact Bool.false_ne_true)] at h
    cases hp2 : EntityValidator.matchesLeadingZeroPattern cleaned.data with
    | true =>
      obtain ⟨rest, hdata, hlen, hdig⟩ := leading_zero_shape cleaned.data hp2
      have hclen : cleaned.length = 11 := by
        show cleaned.data.length = 11
        rw [hdata, List.length_cons, hlen]
      have hsw : PyStr.strStartsWith cleaned "0" = true := by
        simp [PyStr.strStartsWith, hdata, List.isPrefixOf]
      have hnorm : EntityValidator.normalizeCleaned cleaned =
          some (PyStr.strDrop cleaned 1) := by
        simp [EntityValidator.normalizeCleaned, hclen, hsw]
      rw [EntityValidator.phoneLoop, if_pos hp2, hnorm] at h
      have hn : n = PyStr.strDrop cleaned 1 := by
        cases h; rfl
      subst hn
      refine ⟨?_, ?_⟩
      · show (cleaned.data.drop 1).length = 10
        rw [hdata]
        simpa using hlen
      · show (cleaned.data.drop 1).all Char.isDigit = true
        rw [hdata]
        simpa using hdig
    | false =>
      rw [EntityValidator.phoneLoop, if_neg (by rw [hp2]; exact Bool.false_ne_true)] at h
      cases hp3 : EntityValidator.matchesCountryCodePattern cleaned.data with
      | true =>
        obtain ⟨rest, hdata, hlen, hdig⟩ := country_code_shape cleaned.data hp3
        have hclen : cleaned.length = 12 := by
          show cleaned.data.length = 12
          rw [hdata]
          simp [hlen]
        have hsw : PyStr.strStartsWith cleaned "91" = true := by
          simp [PyStr.strStartsWith, hdata, List.isPrefixOf]
        have hnorm : EntityValidator.normalizeCleaned cleaned =
            some (PyStr.strDrop cleaned 2) := by
          simp [EntityValidator.normalizeCleaned, hclen, hsw]
        rw [EntityValidator.phoneLoop, if_pos hp3, hnorm] at h
        have hn : n = PyStr.strDrop cleaned 2 := by
          cases h; rfl
        subst hn
        refine ⟨?_, ?_⟩
        · show (cleaned.data.drop 2).length = 10
          rw [hdata]
          simpa using hlen
        · show (cleaned.data.drop 2).all Char.isDigit = true
          rw [hdata]
          simpa using hdig
      | false =>
        rw [EntityValidator.phoneLoop, if_neg (by rw [hp3]; exact Bool.false_ne_true)] at h
        cases hp4 : EntityValidator.matchesPlusCountryPattern cleaned.data with
        | true =>
          have hclen : cleaned.length = 13 := plus_country_len cleaned.data hp4
          have hnorm : EntityValidator.normalizeCleaned cleaned = none := by
            simp [EntityValidator.normalizeCleaned, hclen]
          rw [EntityValidator.phoneLoop, if_pos hp4, hnorm,
              EntityValidator.phoneLoop] at h
          cases h
        | false =>
          rw [EntityValidator.phoneLoop, if_neg (by rw [hp4]; exact Bool.false_ne_true),
              EntityValidator.phoneLoop] at h
          cases h

/-- C5 amended: for every accepted phone whose normalized value starts
with 6–9, re-validating the normalized value yields VALID with the same
value.  (Phones accepted through the leading-`0` / leading-`91`
patterns whose subscriber number starts 0–5 fail re-validation — see
the counterexample.) -/
theorem validate_phone_roundtrip_on_mobile_start (p n : String)
    (hv : EntityValidator.validate_phone p =
      (EntityValidator.ValidationResult.valid, some n, none))
    (hstart : ∃ c rest, n.data = c :: rest ∧ '6' ≤ c ∧ c ≤ '9') :
    EntityValidator.validate_phone n =
      (EntityValidator.ValidationResult.valid, some n, none) := by
  -- extract the loop result from the accepting run
  have hloop : EntityValidator.phoneLoop (EntityValidator.stripPhone p)
      EntityValidator.PHONE_PATTERNS = some n := by
    unfold EntityValidator.validate_phone at hv
    cases hpe : p.isEmpty with
    | true => rw [if_pos hpe] at hv; cases hv
    | false =>
      rw [if_neg (by rw [hpe]; exact Bool.false_ne_true)] at hv
      cases hl : EntityValidator.phoneLoop (EntityValidator.stripPhone p)
          EntityValidator.PHONE_PATTERNS with
      | none => rw [hl] at hv; cases hv
      | some m => rw [hl] at hv; cases hv; rfl
  obtain ⟨hlen, hdig⟩ := phoneLoop_valid_shape _ _ hloop
  obtain ⟨c, rest, hdata, hb1, hb2⟩ := hstart
  -- n is not empty
  have hne : n.isEmpty = false := by
    cases hni : n.isEmpty with
    | false => rfl
    | true =>
      have : n = "" := (String.isEmpty_iff n).mp hni
      rw [this] at hlen
      cases hlen
  -- stripping does not change an all-digit string
  have hstrip : EntityValidator.stripPhone n = n := stripPhone_of_digits n hdig
  -- the plain-mobile pattern accepts n
  have hp1 : EntityValidator.matchesMobilePattern n.data = true := by
    rw [hdata]
    simp only [EntityValidator.matchesMobilePattern, Bool.and_eq_true,
      beq_iff_eq, decide_eq_true_eq]
    refine ⟨⟨⟨hb1, hb2⟩, ?_⟩, ?_⟩
    · have : rest.length + 1 = 10 := by
        rw [hdata, List.length_cons] at hlen
        exact hlen
      omega
    · rw [hdata, List.all_cons, Bool.and_eq_true] at hdig
      exact hdig.2
  have hclen : n.length = 10 := hlen
  have hnorm : EntityValidator.normalizeCleaned n = some n := by
    simp [EntityValidator.normalizeCleaned, hclen]
  unfold EntityValidator.validate_phone EntityValidator.PHONE_PATTERNS
  rw [if_neg (by rw [hne]; exact Bool.false_ne_true), hstrip,
      EntityValidator.phoneLoop, if_pos hp1, hnorm]

theorem validate_phone_roundtrip_on_mobile_start_witness :
    (EntityValidator.validate_phone "09876543210" =
      (EntityValidator.ValidationResult.valid, some "9876543210", none)) ∧
    EntityValidator.validate_phone "9876543210" =
      (EntityValidator.ValidationResult.valid, some "9876543210", none) :=
  ⟨by decide,
   validate_phone_roundtrip_on_mobile_start "09876543210" "9876543210"
     (by decide) ⟨'9', "876543210".data, rfl, by decide, by decide⟩⟩

/-- C6 counterexample: with `max_turns = 2`, after exactly 2 accepted
turns the session has `len(turns) = max_turns` but `is_active` is still
`true` — `add_turn` only flips `is_active` on the next (rejected)
attempt, so the claimed invariant "`len(S.turns) = max_turns` implies
`is_active = false`" fails in a reachable state. -/
theorem session_active_at_max_turns :
    ((ContextTracker.add_turns ⟨300, 2⟩ 0
        (ContextTracker.create_session "sid" "caller" "phone" 0)
        ["a", "b"]).1.turns.length = 2 ∧
     (ContextTracker.add_turns ⟨300, 2⟩ 0
        (ContextTracker.create_session "sid" "caller" "phone" 0)
        ["a", "b"]).2 = [true, true]) ∧
    (ContextTracker.add_turns ⟨300, 2⟩ 0
        (ContextTracker.create_session "sid" "caller" "phone" 0)
        ["a", "b"]).1.is_active = true := by
  exact ⟨⟨rfl, rfl⟩, rfl⟩

theorem add_turn_succeeds (cfg : ContextTracker.Config) (t0 : Nat)
    (s : ContextTracker.ConversationSession) (ui it : String)
    (ents : List (String × PyVal)) (resp : String)
    (hla : s.last_activity = t0) (hcap : s.turns.length < cfg.max_turns) :
    ContextTracker.add_turn cfg t0 s ui it ents resp =
      (true, { s with
        turns := s.turns ++ [⟨s.turns.length + 1, t0, ui, it, ents, resp⟩],
        last_activity := t0,
        context := ContextTracker.merge_entities s.context ents }) := by
  unfold ContextTracker.add_turn
  have h1 : ContextTracker.is_session_expired cfg s t0 = false := by
    unfold ContextTracker.is_session_expired
    rw [hla]
    simp
  rw [h1]
  simp only [Bool.false_eq_true, if_false]
  rw [if_neg (by omega : ¬ s.turns.length ≥ cfg.max_turns)]

theorem add_turn_rejected (cfg : ContextTracker.Config) (t0 : Nat)
    (s : ContextTracker.ConversationSession) (ui it : String)
    (ents : List (String × PyVal)) (resp : String)
    (hla : s.last_activity = t0) (hcap : s.turns.length ≥ cfg.max_turns) :
    ContextTracker.add_turn cfg t0 s ui it ents resp =
      (false, { s with is_active := false }) := by
  unfold ContextTracker.add_turn
  have h1 : ContextTracker.is_session_expired cfg s t0 = false := by
    unfold ContextTracker.is_session_expired
    rw [hla]
    simp
  rw [h1]
  simp only [Bool.false_eq_true, if_false]
  rw [if_pos hcap]

theorem add_turns_cons (cfg : ContextTracker.Config) (t0 : Nat)
    (s : ContextTracker.ConversationSession) (i : String) (rest : List String) :
    ContextTracker.add_turns cfg t0 s (i :: rest) =
      ((ContextTracker.add_turns cfg t0
          (ContextTracker.add_turn cfg t0 s i "PROVIDE_INFORMATION" [] "").2 rest).1,
       (ContextTracker.add_turn cfg t0 s i "PROVIDE_INFORMATION" [] "").1 ::
         (ContextTracker.add_turns cfg t0
           (ContextTracker.add_turn cfg t0 s i "PROVIDE_INFORMATION" [] "").2 rest).2) :=
  rfl

theorem add_turns_all_ok (cfg : ContextTracker.Config) (t0 : Nat) :
    ∀ (inputs : List String) (s : ContextTracker.ConversationSession),
      s.last_activity = t0 →
      s.turns.length + inputs.length ≤ cfg.max_turns →
      (∀ b ∈ (ContextTracker.add_turns cfg t0 s inputs).2, b = true) ∧
      (ContextTracker.add_turns cfg t0 s inputs).1.turns.length =
        s.turns.length + inputs.length ∧
      (ContextTracker.add_turns cfg t0 s inputs).1.last_activity = t0 ∧
      (ContextTracker.add_turns cfg t0 s inputs).1.is_active = s.is_active := by
  intro inputs
  induction inputs with
  | nil =>
    intro s hla _
    refine ⟨?_, ?_, ?_, ?_⟩
    · intro b hb
      simp [ContextTracker.add_turns] at hb
    · simp [ContextTracker.add_turns]
    · exact hla
    · rfl
  | cons i rest ih =>
    intro s hla hle
    rw [List.length_cons] at hle
    have hstep := add_turn_succeeds cfg t0 s i "PROVIDE_INFORMATION" [] ""
      hla (by omega)
    obtain ⟨ha, hb, hc, hd⟩ := ih
      { s with
        turns := s.turns ++ [⟨s.turns.length + 1, t0, i, "PROVIDE_INFORMATION", [], ""⟩],
        last_activity := t0,
        context := ContextTracker.merge_entities s.context [] }
      rfl (by simp only [List.length_append, List.length_cons, List.length_nil]; omega)
    rw [add_turns_cons, hstep]
    simp only [List.length_append, List.length_cons, List.length_nil] at hb
    refine ⟨?_, ?_, hc, hd⟩
    · intro b hb'
      rcases List.mem_cons.mp hb' with h | h
      · exact h
      · exact ha b h
    · simp only [List.length_cons]
      rw [hb]
      omega

/-- C6 amended: starting from a fresh session, all of the first
`max_turns` `add_turn` calls succeed and leave `is_active = true`
(contrary to the original claim, reaching `len(turns) = max_turns` does
not by itself deactivate the session); any subsequent `add_turn`
attempt is rejected and it is that rejected attempt which marks the
session inactive. -/
theorem max_turns_boundary (cfg : ContextTracker.Config) (t0 : Nat)
    (sid cid ch i2 : String) (inputs : List String)
    (hlen : inputs.length = cfg.max_turns) :
    (∀ b ∈ (ContextTracker.add_turns cfg t0
        (ContextTracker.create_session sid cid ch t0) inputs).2, b = true) ∧
    (ContextTracker.add_turns cfg t0
        (ContextTracker.create_session sid cid ch t0) inputs).1.turns.length =
      cfg.max_turns ∧
    (ContextTracker.add_turns cfg t0
        (ContextTracker.create_session sid cid ch t0) inputs).1.is_active = true ∧
    ContextTracker.add_turn cfg t0
        (ContextTracker.add_turns cfg t0
          (ContextTracker.create_session sid cid ch t0) inputs).1
        i2 "PROVIDE_INFORMATION" [] "" =
      (false, { (ContextTracker.add_turns cfg t0
          (ContextTracker.create_session sid cid ch t0) inputs).1 with
            is_active := false }) := by
  obtain ⟨ha, hb, hc, hd⟩ := add_turns_all_ok cfg t0 inputs
    (ContextTracker.create_session sid cid ch t0) rfl
    (by simp [ContextTracker.create_session, hlen])
  have h0 : (ContextTracker.create_session sid cid ch t0).turns.length = 0 := rfl
  rw [h0, Nat.zero_add] at hb
  have h1 : (ContextTracker.create_session sid cid ch t0).is_active = true := rfl
  rw [h1] at hd
  refine ⟨ha, by rw [hb, hlen], hd, ?_⟩
  refine add_turn_rejected cfg t0 _ i2 "PROVIDE_INFORMATION" [] "" hc ?_
  rw [hb, hlen]

theorem max_turns_boundary_witness :
    (["a", "b"] : List String).length = (⟨300, 2⟩ : ContextTracker.Config).max_turns ∧
    ((∀ b ∈ (ContextTracker.add_turns ⟨300, 2⟩ 7
        (ContextTracker.create_session "s" "c" "phone" 7) ["a", "b"]).2, b = true) ∧
     (ContextTracker.add_turns ⟨300, 2⟩ 7
        (ContextTracker.create_session "s" "c" "phone" 7) ["a", "b"]).1.turns.length =
       (⟨300, 2⟩ : ContextTracker.Config).max_turns ∧
     (ContextTracker.add_turns ⟨300, 2⟩ 7
        (ContextTracker.create_session "s" "c" "phone" 7) ["a", "b"]).1.is_active = true ∧
     ContextTracker.add_turn ⟨300, 2⟩ 7
        (ContextTracker.add_turns ⟨300, 2⟩ 7
          (ContextTracker.create_session "s" "c" "phone" 7) ["a", "b"]).1
        "c" "PROVIDE_INFORMATION" [] "" =
      (false, { (ContextTracker.add_turns ⟨300, 2⟩ 7
          (ContextTracker.create_session "s" "c" "phone" 7) ["a", "b"]).1 with
            is_active := false })) :=
  ⟨rfl, max_turns_boundary ⟨300, 2⟩ 7 "s" "c" "phone" "c" ["a", "b"] rfl⟩

theorem bag_get_set_self (d : Bag) (k : String) (v : PyVal) :
    (d.set k v).get k = v := by
  induction d with
  | nil => simp [Bag.set, Bag.get, List.lookup]
  | cons kv rest ih =>
    obtain ⟨k', v'⟩ := kv
    by_cases hk : k' = k
    · subst hk
      simp [Bag.set, Bag.get, List.lookup]
    · have hne : (k == k') = false := beq_eq_false_iff_ne.mpr (Ne.symm hk)
      unfold Bag.set
      rw [if_neg hk]
      unfold Bag.get List.lookup
      rw [hne]
      exact ih

theorem bag_get_set_ne (d : Bag) (k k' : String) (v : PyVal) (h : k' ≠ k) :
    (d.set k v).get k' = d.get k' := by
  have hne : (k' == k) = false := beq_eq_false_iff_ne.mpr h
  induction d with
  | nil =>
    unfold Bag.set Bag.get List.lookup
    rw [hne]
    rfl
  | cons kv rest ih =>
    obtain ⟨k1, v1⟩ := kv
    by_cases hk : k1 = k
    · subst hk
      unfold Bag.set
      rw [if_pos rfl]
      unfold Bag.get List.lookup
      rw [hne]
    · unfold Bag.set
      rw [if_neg hk]
      cases hbeq : (k' == k1) with
      | true =>
        unfold Bag.get List.lookup
        rw [hbeq]
      | false =>
        unfold Bag.get List.lookup
        rw [hbeq]
        exact ih

theorem bag_keys_set_mem (d : Bag) (k0 : String) (v0 : PyVal) (k : String)
    (h : k ∈ d.map Prod.fst) : k ∈ (d.set k0 v0).map Prod.fst := by
  induction d with
  | nil => cases h
  | cons kv rest ih =>
    obtain ⟨k1, v1⟩ := kv
    rw [List.map_cons] at h
    rcases List.mem_cons.mp h with h1 | h1
    · by_cases hk : k1 = k0
      · subst hk
        unfold Bag.set
        rw [if_pos rfl, List.map_cons]
        rw [h1]
        exact List.mem_cons_self _ _
      · unfold Bag.set
        rw [if_neg hk, List.map_cons]
        rw [h1]
        exact List.mem_cons_self _ _
    · by_cases hk : k1 = k0
      · subst hk
        unfold Bag.set
        rw [if_pos rfl, List.map_cons]
        exact List.mem_cons_of_mem _ h1
      · unfold Bag.set
        rw [if_neg hk, List.map_cons]
        exact List.mem_cons_of_mem _ (ih h1)

theorem merge_entities_cons (ctx : Bag) (k1 : String) (v1 : PyVal)
    (rest : List (String × PyVal)) :
    ContextTracker.merge_entities ctx ((k1, v1) :: rest) =
      ContextTracker.merge_entities (if v1.truthy then ctx.set k1 v1 else ctx) rest :=
  rfl

theorem mem_val_unique_of_nodup_keys (l : List (String × PyVal))
    (hnd : (l.map Prod.fst).Nodup) (k : String) (v v' : PyVal)
    (h1 : (k, v) ∈ l) (h2 : (k, v') ∈ l) : v = v' := by
  induction l with
  | nil => cases h1
  | cons kv rest ih =>
    obtain ⟨k1, v1⟩ := kv
    rw [List.map_cons, List.nodup_cons] at hnd
    rcases List.mem_cons.mp h1 with ha | ha <;> rcases List.mem_cons.mp h2 with hb | hb
    · injection ha with hak hav
      injection hb with hbk hbv
      rw [hav, hbv]
    · injection ha with hak hav
      subst hak
      exact absurd (List.mem_map_of_mem Prod.fst hb) hnd.1
    · injection hb with hbk hbv
      subst hbk
      exact absurd (List.mem_map_of_mem Prod.fst ha) hnd.1
    · exact ih hnd.2 ha hb

theorem merge_get_of_all_falsy (entities : List (String × PyVal)) :
    ∀ (ctx : Bag) (k : String),
      (∀ v, (k, v) ∈ entities → v.truthy = false) →
      (ContextTracker.merge_entities ctx entities).get k = ctx.get k := by
  induction entities with
  | nil => intro ctx k _; rfl
  | cons kv rest ih =>
    intro ctx k h
    obtain ⟨k1, v1⟩ := kv
    rw [merge_entities_cons]
    cases ht : v1.truthy with
    | false =>
      rw [if_neg Bool.false_ne_true]
      exact ih ctx k (fun v hv => h v (List.mem_cons_of_mem _ hv))
    | true =>
      rw [if_pos rfl]
      have hk1 : k1 ≠ k := by
        intro he
        subst he
        exact absurd (h v1 (List.mem_cons_self _ _)) (by rw [ht]; simp)
      rw [ih (ctx.set k1 v1) k (fun v hv => h v (List.mem_cons_of_mem _ hv))]
      exact bag_get_set_ne ctx k1 k v1 (Ne.symm hk1)

theorem merge_get_of_mem_truthy (entities : List (String × PyVal)) :
    ∀ (ctx : Bag) (k : String) (v : PyVal),
      (entities.map Prod.fst).Nodup → (k, v) ∈ entities → v.truthy = true →
      (ContextTracker.merge_entities ctx entities).get k = v := by
  induction entities with
  | nil => intro ctx k v _ hmem; cases hmem
  | cons kv rest ih =>
    intro ctx k v hnd hmem ht
    obtain ⟨k1, v1⟩ := kv
    rw [List.map_cons, List.nodup_cons] at hnd
    rw [merge_entities_cons]
    rcases List.mem_cons.mp hmem with h1 | h1
    · injection h1 with hk hv
      subst hk
      subst hv
      rw [if_pos ht]
      have hnok : ∀ v', (k, v') ∈ rest → v'.truthy = false := by
        intro v' hv'
        exact absurd (List.mem_map_of_mem Prod.fst hv') hnd.1
      rw [merge_get_of_all_falsy rest (ctx.set k v) k hnok]
      exact bag_get_set_self ctx k v
    · exact ih (if v1.truthy then ctx.set k1 v1 else ctx) k v hnd.2 h1 ht

theorem merge_preserves_keys (entities : List (String × PyVal)) :
    ∀ (ctx : Bag) (k : String),
      k ∈ ctx.map Prod.fst →
      k ∈ (ContextTracker.merge_entities ctx entities).map Prod.fst := by
  induction entities with
  | nil => intro ctx k h; exact h
  | cons kv rest ih =>
    intro ctx k h
    obtain ⟨k1, v1⟩ := kv
    rw [merge_entities_cons]
    cases ht : v1.truthy with
    | false =>
      rw [if_neg Bool.false_ne_true]
      exact ih ctx k h
    | true =>
      rw [if_pos rfl]
      exact ih (ctx.set k1 v1) k (bag_keys_set_mem ctx k1 v1 k h)

/-- C7: after a successfully appended turn, every entity key bound to a
truthy value appears in the session context with exactly that value;
keys bound to falsy values leave the context entry unchanged; and no
pre-existing context key is removed. -/
theorem entity_merge_after_turn (cfg : ContextTracker.Config) (t0 : Nat)
    (s : ContextTracker.ConversationSession) (ui it resp : String)
    (entities : List (String × PyVal))
    (hnd : (entities.map Prod.fst).Nodup)
    (hok : (ContextTracker.add_turn cfg t0 s ui it entities resp).1 = true) :
    (∀ k v, (k, v) ∈ entities → v.truthy = true →
      ((ContextTracker.add_turn cfg t0 s ui it entities resp).2.context).get k = v) ∧
    (∀ k v, (k, v) ∈ entities → v.truthy = false →
      ((ContextTracker.add_turn cfg t0 s ui it entities resp).2.context).get k =
        s.context.get k) ∧
    (∀ k, k ∈ s.context.map Prod.fst →
      k ∈ ((ContextTracker.add_turn cfg t0 s ui it entities resp).2.context).map
        Prod.fst) := by
  have hctx : (ContextTracker.add_turn cfg t0 s ui it entities resp).2.context =
      ContextTracker.merge_entities s.context entities := by
    unfold ContextTracker.add_turn at hok ⊢
    cases he : ContextTracker.is_session_expired cfg s t0 with
    | true =>
      rw [he] at hok
      simp at hok
    | false =>
      rw [he] at hok
      simp only [Bool.false_eq_true, if_false] at hok ⊢
      by_cases hcap : s.turns.length ≥ cfg.max_turns
      · rw [if_pos hcap] at hok
        simp at hok
      · rw [if_neg hcap]
  rw [hctx]
  refine ⟨?_, ?_, ?_⟩
  · intro k v hmem ht
    exact merge_get_of_mem_truthy entities s.context k v hnd hmem ht
  · intro k v hmem ht
    refine merge_get_of_all_falsy entities s.context k ?_
    intro v' hv'
    rw [mem_val_unique_of_nodup_keys entities hnd k v' v hv' hmem]
    exact ht
  · intro k hk
    exact merge_preserves_keys entities s.context k hk

theorem entity_merge_after_turn_witness :
    ((([("phone", PyVal.str "9876543210"), ("note", PyVal.str "")] :
        List (String × PyVal)).map Prod.fst).Nodup ∧
     (ContextTracker.add_turn ⟨300, 20⟩ 0
        (ContextTracker.create_session "s" "c" "phone" 0) "hi" "PROVIDE_INFORMATION"
        [("phone", PyVal.str "9876543210"), ("note", PyVal.str "")] "ok").1 = true) ∧
    (∀ k v, (k, v) ∈ ([("phone", PyVal.str "9876543210"), ("note", PyVal.str "")] :
        List (String × PyVal)) → v.truthy = true →
      ((ContextTracker.add_turn ⟨300, 20⟩ 0
        (ContextTracker.create_session "s" "c" "phone" 0) "hi" "PROVIDE_INFORMATION"
        [("phone", PyVal.str "9876543210"), ("note", PyVal.str "")] "ok").2.context).get k = v) := by
  refine ⟨⟨by decide, rfl⟩, ?_⟩
  exact (entity_merge_after_turn ⟨300, 20⟩ 0
    (ContextTracker.create_session "s" "c" "phone" 0) "hi" "PROVIDE_INFORMATION" "ok"
    [("phone", PyVal.str "9876543210"), ("note", PyVal.str "")]
    (by decide) rfl).1

/-- C9 counterexample: the rule-based fallback returns `CHECK_STATUS`
for the input "status"; `CHECK_STATUS` is not a member of the closed
intent vocabulary (the `Intent` enum). -/
theorem fallback_returns_check_status_outside_vocabulary :
    (IntentClassifier.fallback_classification "status").intent = "CHECK_STATUS" ∧
    "CHECK_STATUS" ∉ IntentClassifier.INTENT_VOCABULARY := by
  exact ⟨by decide, by decide⟩

theorem intent_ok_ite (c : Prop) [Decidable c] (a b : IntentClassifier.IntentResultM)
    (ha : a.intent ∈ IntentClassifier.INTENT_VOCABULARY ∨ a.intent = "CHECK_STATUS")
    (hb : b.intent ∈ IntentClassifier.INTENT_VOCABULARY ∨ b.intent = "CHECK_STATUS") :
    (if c then a else b).intent ∈ IntentClassifier.INTENT_VOCABULARY ∨
      (if c then a else b).intent = "CHECK_STATUS" := by
  by_cases h : c
  · rw [if_pos h]; exact ha
  · rw [if_neg h]; exact hb

theorem intent_ok_of_eq (r : IntentClassifier.IntentResultM) (s : String)
    (h : r.intent = s)
    (hs : s ∈ IntentClassifier.INTENT_VOCABULARY ∨ s = "CHECK_STATUS") :
    r.intent ∈ IntentClassifier.INTENT_VOCABULARY ∨ r.intent = "CHECK_STATUS" := by
  rw [h]; exact hs

/-- C9 (amended): for every input text, the rule-based fallback classifier
returns an intent that is either in the spec's closed vocabulary of 25 names
or is the extra name "CHECK_STATUS" (which is outside that vocabulary). -/
theorem fallback_intent_in_extended_vocabulary (text : String) :
    (IntentClassifier.fallback_classification text).intent ∈
        IntentClassifier.INTENT_VOCABULARY ∨
      (IntentClassifier.fallback_classification text).intent = "CHECK_STATUS" := by
  unfold IntentClassifier.fallback_classification IntentClassifier.fallback_classification_on
  refine intent_ok_ite _ _ _ (intent_ok_of_eq _ "GREETING" rfl (by decide)) ?_
  refine intent_ok_ite _ _ _ (intent_ok_of_eq _ "GOODBYE" rfl (by decide)) ?_
  refine intent_ok_ite _ _ _ (intent_ok_of_eq _ "REPORT_EMERGENCY" rfl (by decide)) ?_
  refine intent_ok_ite _ _ _ (intent_ok_of_eq _ "CHECK_STATUS" rfl (by decide)) ?_
  refine intent_ok_ite _ _ _ (intent_ok_of_eq _ "BOOK_APPOINTMENT" rfl (by decide)) ?_
  refine intent_ok_ite _ _ _ (intent_ok_of_eq _ "REGISTER_PATIENT" rfl (by decide)) ?_
  refine intent_ok_ite _ _ _ (intent_ok_of_eq _ "OPD_CHECKIN" rfl (by decide)) ?_
  refine intent_ok_ite _ _ _ (intent_ok_of_eq _ "CHECK_BED_AVAILABILITY" rfl (by decide)) ?_
  refine intent_ok_ite _ _ _ (intent_ok_of_eq _ "BOOK_LAB_TEST" rfl (by decide)) ?_
  refine intent_ok_ite _ _ _ (intent_ok_of_eq _ "CHECK_BILL_STATUS" rfl (by decide)) ?_
  refine intent_ok_ite _ _ _ (intent_ok_of_eq _ "ESCALATE_TO_HUMAN" rfl (by decide)) ?_
  refine intent_ok_ite _ _ _ (intent_ok_of_eq _ "PROVIDE_INFORMATION" rfl (by decide)) ?_
  refine intent_ok_ite _ _ _ (intent_ok_of_eq _ "CONFIRM_YES" rfl (by decide)) ?_
  refine intent_ok_ite _ _ _ (intent_ok_of_eq _ "CONFIRM_NO" rfl (by decide)) ?_
  cases IntentClassifier.scanFor IntentClassifier.matchDateAt none text.data with
  | some m => exact intent_ok_of_eq _ "PROVIDE_INFORMATION" rfl (by decide)
  | none =>
    refine intent_ok_ite _ _ _ (intent_ok_of_eq _ "PROVIDE_INFORMATION" rfl (by decide)) ?_
    cases IntentClassifier.scanFor IntentClassifier.matchTimeAt none text.data with
    | some m => exact intent_ok_of_eq _ "PROVIDE_INFORMATION" rfl (by decide)
    | none =>
      cases IntentClassifier.scanFor IntentClassifier.matchPhone10At none
          (IntentClassifier.normalizePhoneText text) with
      | some run => exact intent_ok_of_eq _ "PROVIDE_INFORMATION" rfl (by decide)
      | none =>
        unfold IntentClassifier.fallback_words_branch
        refine intent_ok_ite _ _ _
          (intent_ok_of_eq _ "PROVIDE_INFORMATION" rfl (by decide))
          (intent_ok_ite _ _ _
            (intent_ok_of_eq _ "PROVIDE_INFORMATION" rfl (by decide))
            (intent_ok_of_eq _ "UNCLEAR" rfl (by decide)))

theorem str_truthy_of_ne_empty (s : String) (h : s ≠ "") :
    (PyVal.str s).truthy = true := by
  have he : s.isEmpty = false := by
    cases hi : s.isEmpty
    · rfl
    · exact absurd ((String.isEmpty_iff s).mp hi) h
  simp [PyVal.truthy, he]

theorem isoformat_ne_empty (dd : PyDateM.PyDate) : PyDateM.isoformat dd ≠ "" := by
  intro h
  have hl : (PyDateM.isoformat dd).length = 0 := by rw [h]; rfl
  rw [PyDateM.isoformat] at hl
  simp only [String.length_append] at hl
  have h1 : ("-" : String).length = 1 := rfl
  rw [h1] at hl
  omega

theorem format_date_empty (today : PyDateM.PyDate) :
    BaseWorkflow.format_date today "" = none := rfl

theorem format_date_ne_empty (today : PyDateM.PyDate) (d s : String)
    (h : BaseWorkflow.format_date today d = some s) : s ≠ "" := by
  simp only [BaseWorkflow.format_date] at h
  split at h
  · cases h; exact isoformat_ne_empty _
  · split at h
    · cases h; exact isoformat_ne_empty _
    · split at h
      · have hs := Option.some.inj h
        rw [← hs]
        exact isoformat_ne_empty _
      · cases hfd : PyDateM.tryFormats d.data with
        | none => rw [hfd] at h; exact Option.noConfusion h
        | some r =>
          rw [hfd] at h
          obtain ⟨y, m, dd⟩ := r
          have hs := Option.some.inj h
          rw [← hs]
          exact isoformat_ne_empty _

theorem book_step6_scheduled_date (B : AppointmentBooking.Backend) (entities : Bag)
    (pid depid did fd : PyVal) (calls : List AppointmentBooking.ApiCall) :
    ∃ data, (AppointmentBooking.book_step6 B entities pid depid did fd calls).2 =
        calls ++ [AppointmentBooking.ApiCall.createAppointment data] ∧
      Bag.get data "scheduledDate" = fd := by
  simp only [AppointmentBooking.book_step6]
  by_cases hdt : did.truthy = true <;>
    by_cases hcc : (Bag.get entities "chief_complaint").truthy = true <;>
    simp only [hdt, hcc, if_true, if_false, eq_self_iff_true, iff_false, ite_true, ite_false] <;>
    split <;>
    exact ⟨_, rfl, rfl⟩

theorem book_step45_scheduled_date (B : AppointmentBooking.Backend)
    (today : PyDateM.PyDate) (entities context wf : Bag)
    (pid dep depid did dname : PyVal) (avDocs : List DoctorR)
    (calls : List AppointmentBooking.ApiCall) (d f : String)
    (hd : Bag.get entities "preferred_date" = PyVal.str d)
    (hfmt : BaseWorkflow.format_date today d = some f)
    (hconf : ((Bag.get entities "confirmed").pyOr
        ((Bag.get context "confirmed").pyOr (Bag.get wf "confirmed"))).truthy = true) :
    ∃ data,
      (AppointmentBooking.book_step45 B today entities context wf pid dep depid did dname
          avDocs calls).2 =
        calls ++ [AppointmentBooking.ApiCall.createAppointment data] ∧
      Bag.get data "scheduledDate" = PyVal.str f := by
  have hdne : d ≠ "" := by
    intro hh
    rw [hh, format_date_empty today] at hfmt
    exact Option.noConfusion hfmt
  have htr : (PyVal.str d).truthy = true := str_truthy_of_ne_empty d hdne
  have hftr : (PyVal.str f).truthy = true :=
    str_truthy_of_ne_empty f (format_date_ne_empty today d f hfmt)
  simp only [AppointmentBooking.book_step45, hd, htr, PyVal.asStr, hfmt, hconf,
    if_true, eq_self_iff_true, ite_true, hftr, Bool.not_true, if_false, ite_false,
    Bool.false_eq_true]
  exact book_step6_scheduled_date B entities pid depid did (PyVal.str f) calls

theorem book_step3_scheduled_date (B : AppointmentBooking.Backend)
    (today : PyDateM.PyDate) (entities context wf : Bag)
    (pid dep depid : PyVal) (calls : List AppointmentBooking.ApiCall) (d f : String)
    (hdoc : ((Bag.get entities "doctor_id").pyOr
        ((Bag.get context "doctor_id").pyOr (Bag.get wf "doctor_id"))).truthy = true)
    (hd : Bag.get entities "preferred_date" = PyVal.str d)
    (hfmt : BaseWorkflow.format_date today d = some f)
    (hconf : ((Bag.get entities "confirmed").pyOr
        ((Bag.get context "confirmed").pyOr (Bag.get wf "confirmed"))).truthy = true) :
    ∃ data,
      (AppointmentBooking.book_step3 B today entities context wf pid dep depid calls).2 =
        calls ++ [AppointmentBooking.ApiCall.createAppointment data] ∧
      Bag.get data "scheduledDate" = PyVal.str f := by
  simp only [AppointmentBooking.book_step3, hdoc, Bool.not_true, Bool.false_and,
    Bool.and_false, if_false, ite_false, Bool.false_eq_true]
  exact book_step45_scheduled_date B today entities context wf pid dep depid _ _ _ calls
    d f hd hfmt hconf

theorem book_step2_scheduled_date (B : AppointmentBooking.Backend)
    (today : PyDateM.PyDate) (entities context collected wf : Bag)
    (pid phone : PyVal) (calls : List AppointmentBooking.ApiCall) (d f : String)
    (hdept : ((Bag.get entities "department_id").pyOr
        ((Bag.get context "department_id").pyOr
          ((Bag.get collected "department_id").pyOr
            (Bag.get wf "department_id")))).truthy = true)
    (hdoc : ((Bag.get entities "doctor_id").pyOr
        ((Bag.get context "doctor_id").pyOr (Bag.get wf "doctor_id"))).truthy = true)
    (hd : Bag.get entities "preferred_date" = PyVal.str d)
    (hfmt : BaseWorkflow.format_date today d = some f)
    (hconf : ((Bag.get entities "confirmed").pyOr
        ((Bag.get context "confirmed").pyOr (Bag.get wf "confirmed"))).truthy = true) :
    ∃ data,
      (AppointmentBooking.book_step2 B today entities context collected wf pid phone
          calls).2 =
        calls ++ [AppointmentBooking.ApiCall.createAppointment data] ∧
      Bag.get data "scheduledDate" = PyVal.str f := by
  simp only [AppointmentBooking.book_step2, hdept, Bool.not_true, if_false, ite_false,
    Bool.false_eq_true]
  exact book_step3_scheduled_date B today entities context wf pid _ _ calls d f
    hdoc hd hfmt hconf

/-- C8 counterexample: a fully resolved, confirmed booking run with the
past preferred date "01-01-2020" reaches `create_appointment` and sends
`scheduledDate = "2020-01-01"`, which is strictly earlier than the
current day `today0 = 2026-10-12`; the booking succeeds.  No comparison
with the current day occurs anywhere on the path
(`BaseWorkflow._format_date` has no past-date check, unlike
`EntityValidator.validate_date`, which the workflow does not call). -/
theorem booking_issues_past_scheduled_date :
    (AppointmentBooking.book_appointment B0 today0 ents0 ctx0).2 =
      [AppointmentBooking.ApiCall.createAppointment payload0] ∧
    Bag.get payload0 "scheduledDate" = PyVal.str "2020-01-01" ∧
    PyDateM.dateLt ⟨2020, 1, 1⟩ today0 = true ∧
    (AppointmentBooking.book_appointment B0 today0 ents0 ctx0).1.success = true :=
  ⟨rfl, rfl, rfl, rfl⟩

/-- C8 amended: whenever a booking run has the patient, department and
doctor resolved (through the entity/context/collected/workflow-state
fallback chains), a parseable preferred date and a confirmation, the
run issues exactly one `create_appointment` call whose `scheduledDate`
is the `_format_date` rendering of the preferred date — whatever day
that is.  The date is formatted through the date rules but is never
compared against the current day, so the "today or future" part of the
claim fails (see the counterexample). -/
theorem booking_scheduled_date_is_formatted_date (B : AppointmentBooking.Backend)
    (today : PyDateM.PyDate) (entities context : Bag) (d f : String)
    (hpat : ((Bag.get entities "patient_id").pyOr
        ((Bag.get context "patient_id").pyOr
          ((Bag.get (Bag.getBag context "collected_entities") "patient_id").pyOr
            (Bag.get (Bag.getBag context "workflow_state") "patient_id")))).truthy = true)
    (hdept : ((Bag.get entities "department_id").pyOr
        ((Bag.get context "department_id").pyOr
          ((Bag.get (Bag.getBag context "collected_entities") "department_id").pyOr
            (Bag.get (Bag.getBag context "workflow_state") "department_id")))).truthy = true)
    (hdoc : ((Bag.get entities "doctor_id").pyOr
        ((Bag.get context "doctor_id").pyOr
          (Bag.get (Bag.getBag context "workflow_state") "doctor_id"))).truthy = true)
    (hd : Bag.get entities "preferred_date" = PyVal.str d)
    (hfmt : BaseWorkflow.format_date today d = some f)
    (hconf : ((Bag.get entities "confirmed").pyOr
        ((Bag.get context "confirmed").pyOr
          (Bag.get (Bag.getBag context "workflow_state") "confirmed"))).truthy = true) :
    ∃ data,
      (AppointmentBooking.book_appointment B today entities context).2 =
        [AppointmentBooking.ApiCall.createAppointment data] ∧
      Bag.get data "scheduledDate" = PyVal.str f := by
  simp only [AppointmentBooking.book_appointment, hpat, Bool.not_true, Bool.and_false,
    if_false, ite_false, Bool.false_eq_true]
  obtain ⟨data, h1, h2⟩ := book_step2_scheduled_date B today entities context
    (Bag.getBag context "collected_entities") (Bag.getBag context "workflow_state")
    _ _ [] d f hdept hdoc hd hfmt hconf
  exact ⟨data, by simpa using h1, h2⟩

/-- Witness for the C8 amended theorem at the concrete booking fixtures. -/
theorem booking_scheduled_date_is_formatted_date_witness :
    ∃ data,
      (AppointmentBooking.book_appointment B0 today0 ents0 ctx0).2 =
        [AppointmentBooking.ApiCall.createAppointment data] ∧
      Bag.get data "scheduledDate" = PyVal.str "2020-01-01" :=
  booking_scheduled_date_is_formatted_date B0 today0 ents0 ctx0 "01-01-2020" "2020-01-01"
    (by decide) (by decide) (by decide) rfl (by decide) (by decide)

theorem safe_response_confirm_override_none (intent : String) (confidence : ℚ)
    (raw_text : String) (context : Bag)
    (h : (SafetyGuardrails.get_safe_response intent confidence raw_text context).action =
      SafetyGuardrails.SafetyAction.confirm) :
    (SafetyGuardrails.get_safe_response intent confidence raw_text context).intent_override =
      none := by
  simp only [SafetyGuardrails.get_safe_response] at h ⊢
  split_ifs at h ⊢
  rfl

/-- C10: in `process_conversation`, a safety result with action
`confirm` does not gate execution — the workflow engine is invoked with
the classified intent anyway and its response text is returned, while
the confirmation question carried in the safety message is discarded;
only action `clarify` returns the safety message without invoking the
engine. -/
theorem confirm_action_does_not_gate_workflow
    (classify : String → Bag → IntentClassifier.IntentResultM)
    (normalize : Bag → Bag)
    (engine : String → Bag → Bag → AppointmentBooking.WorkflowResultM)
    (session_id user_input : String) (context : Bag)
    (ir : IntentClassifier.IntentResultM) (S : SafetyGuardrails.SafeResponse)
    (hir : classify user_input context = ir)
    (hS : SafetyGuardrails.get_safe_response ir.intent ir.confidence user_input context = S) :
    (S.action = SafetyGuardrails.SafetyAction.confirm →
      (MainApp.process_conversation classify normalize engine session_id user_input
          context).2 = [ir.intent] ∧
      (MainApp.process_conversation classify normalize engine session_id user_input
          context).1.response_text =
        (engine ir.intent ((normalize ir.entities).set "_raw_input" (PyVal.str user_input))
            context).response_text) ∧
    (S.action = SafetyGuardrails.SafetyAction.clarify →
      (MainApp.process_conversation classify normalize engine session_id user_input
          context).2 = [] ∧
      (MainApp.process_conversation classify normalize engine session_id user_input
          context).1.response_text = S.message.getD "") := by
  constructor
  · intro hc
    have hov : S.intent_override = none := by
      rw [← hS]
      exact safe_response_confirm_override_none ir.intent ir.confidence user_input context
        (by rw [hS]; exact hc)
    simp only [MainApp.process_conversation, hir, hS, hov, hc]
    constructor <;> rfl
  · intro hc
    simp only [MainApp.process_conversation, hir, hS, hc]
    constructor <;> rfl

/-- Witness for C10: a MEDIUM-confidence CANCEL_APPOINTMENT
classification (confidence 0.70, threshold 0.85) makes the gate answer
`confirm`, yet the engine runs with that intent and its response is
returned. -/
theorem confirm_action_does_not_gate_workflow_witness :
    (MainApp.process_conversation classify0 normalize0 engine0 "s1" "xyz" []).2 =
        ["CANCEL_APPOINTMENT"] ∧
      (MainApp.process_conversation classify0 normalize0 engine0 "s1" "xyz"
          []).1.response_text = "ENGINE CANCEL_APPOINTMENT" := by
  have h := (confirm_action_does_not_gate_workflow classify0 normalize0 engine0 "s1" "xyz" []
    ir0 S0 rfl rfl).1 (by decide)
  exact ⟨h.1, h.2⟩
